import Mathlib

/-!
Shallow embedding of the aumos-observability decision core:
the rule-based alert correlation engine
(`src/aumos_observability/core/alerting/correlation_engine.py`) and the SLO
burn-rate engine (`src/aumos_observability/core/slo_engine.py`, plus the
window math of `src/aumos_observability/adapters/slo_engine.py`).

Modelling conventions:
* `datetime` instants become `Int` seconds; `datetime.now(timezone.utc)` read
  inside a call becomes an explicit `now : Int` parameter of that call.
* Python mutates `Alert` objects in place, and the buffer and the groups hold
  aliases of the same objects.  The embedding keeps full `Alert` records in the
  buffer and in the groups and models a field assignment on one object as a
  simultaneous update of every stored record carrying that object's `id`
  (faithful whenever ids are unique, which `uuid4` guarantees).
* The metric backend (`PrometheusClient.instant_query`) is an external
  collaborator; its response is abstracted as `PromResponse`, distinguishing
  the shapes `_query_scalar` branches on: an exception, an empty result list,
  a NaN sample, or a plain finite sample.  Floats become `ℚ`.
-/

namespace Aumos

/-! ### Data model of the correlation engine -/

inductive AlertSeverity
  | critical
  | warning
  | info
deriving DecidableEq, Repr

/-- `Alert` dataclass of `correlation_engine.py`. `id` stands for the uuid. -/
structure Alert where
  id : Nat
  service_name : String
  tenant_id : String
  severity : AlertSeverity
  message : String
  timestamp : Int
  labels : List (String × String)
  is_root_cause : Bool
  correlated_group_id : Option Nat
deriving DecidableEq, Repr

/-- `CorrelatedAlertGroup` dataclass. `group_id` stands for the uuid. -/
structure CorrelatedAlertGroup where
  group_id : Nat
  root_cause : Option Alert
  related_alerts : List Alert
  tenant_id : String
  started_at : Int
  suppressed_count : Nat
deriving DecidableEq, Repr

/-- The module-level `SERVICE_DEPENDENCY_GRAPH` constant, verbatim. -/
def SERVICE_DEPENDENCY_GRAPH : List (String × List String) :=
  [ ("aumos-data-layer",
      [ "aumos-governance-engine", "aumos-model-registry", "aumos-ai-finops",
        "aumos-maturity-assessment", "aumos-context-graph",
        "aumos-shadow-ai-toolkit" ]),
    ("aumos-event-bus",
      [ "aumos-observability", "aumos-governance-engine", "aumos-ai-finops",
        "aumos-drift-detector", "aumos-security-runtime" ]),
    ("aumos-auth-gateway",
      [ "aumos-llm-serving", "aumos-governance-engine", "aumos-model-registry",
        "aumos-marketplace", "aumos-ai-finops" ]),
    ("aumos-llm-serving",
      [ "aumos-text-engine", "aumos-agent-framework", "aumos-context-graph",
        "aumos-hallucination-shield" ]),
    ("aumos-platform-core",
      [ "aumos-data-layer", "aumos-event-bus", "aumos-auth-gateway",
        "aumos-observability", "aumos-secrets-vault" ]) ]

/-- `SERVICE_DEPENDENCY_GRAPH.get(service, [])`. -/
def dependents (service : String) : List String :=
  (SERVICE_DEPENDENCY_GRAPH.lookup service).getD []

/-- `AlertCorrelationEngine._is_downstream`: direct dependents first, then one
level of transitive traversal. -/
def is_downstream (upstream_service candidate_service : String) : Bool :=
  let direct_dependents := dependents upstream_service
  decide (candidate_service ∈ direct_dependents) ||
    direct_dependents.any
      (fun dependent => decide (candidate_service ∈ dependents dependent))

/-! ### Engine state and the aliasing model -/

/-- In-memory state of one `AlertCorrelationEngine` instance. The Python dict
`_correlation_groups` becomes an insertion-ordered association list, and the
uuid supply for new groups becomes the counter `next_group_id`. -/
structure AlertCorrelationEngine where
  window_seconds : Int
  max_buffer_size : Nat
  alert_buffer : List Alert
  correlation_groups : List (Nat × CorrelatedAlertGroup)
  next_group_id : Nat
deriving DecidableEq, Repr

/-- `AlertCorrelationEngine.__init__`. -/
def AlertCorrelationEngine.mk0 (window_seconds : Int) (max_buffer_size : Nat) :
    AlertCorrelationEngine :=
  { window_seconds := window_seconds, max_buffer_size := max_buffer_size,
    alert_buffer := [], correlation_groups := [], next_group_id := 0 }

/-- The assignment `obj.correlated_group_id = gid` on the alert object with
id `aid`, seen from one stored record: the record changes exactly when it is
(a copy of) that object. -/
def Alert.setGroupId (aid gid : Nat) (a : Alert) : Alert :=
  if a.id = aid then { a with correlated_group_id := some gid } else a

/-- The assignment `obj.is_root_cause = True` on the alert object with id
`aid`, seen from one stored record. -/
def Alert.setRootFlag (aid : Nat) (a : Alert) : Alert :=
  if a.id = aid then { a with is_root_cause := true } else a

/-- Propagate a per-object field assignment to the copies a group stores. -/
def CorrelatedAlertGroup.mapAlerts (f : Alert → Alert)
    (g : CorrelatedAlertGroup) : CorrelatedAlertGroup :=
  { g with root_cause := g.root_cause.map f,
           related_alerts := g.related_alerts.map f }

/-- Propagate a per-object field assignment to every record the engine holds
(the alias set of one Python object). -/
def AlertCorrelationEngine.mapAlerts (f : Alert → Alert)
    (s : AlertCorrelationEngine) : AlertCorrelationEngine :=
  { s with alert_buffer := s.alert_buffer.map f,
           correlation_groups :=
             s.correlation_groups.map (fun p => (p.1, p.2.mapAlerts f)) }

/-! ### Pruning -/

/-- `AlertCorrelationEngine._prune_stale_alerts`, with `now` the value
`datetime.now(timezone.utc)` read inside the call.  Buffered alerts are kept
when `timestamp > cutoff`; groups are kept when not `started_at < cutoff`
(written as `cutoff ≤ started_at`); then the hard cap keeps only the most
recent `max_buffer_size` buffer entries. -/
def AlertCorrelationEngine.prune_stale_alerts (now : Int)
    (s : AlertCorrelationEngine) : AlertCorrelationEngine :=
  let cutoff := now - 2 * s.window_seconds
  let buf := s.alert_buffer.filter (fun a => decide (cutoff < a.timestamp))
  let groups := s.correlation_groups.filter
    (fun p => decide (cutoff ≤ p.2.started_at))
  let buf2 :=
    if s.max_buffer_size < buf.length then
      buf.drop (buf.length - s.max_buffer_size)
    else buf
  { s with alert_buffer := buf2, correlation_groups := groups }

/-! ### Ingestion -/

/-- The per-group test of the first loop of `ingest_alert`: same tenant, a
`root_cause` present, and the alert's service downstream of the root's. -/
def suppression_match (al : Alert) (p : Nat × CorrelatedAlertGroup) : Bool :=
  decide (p.2.tenant_id = al.tenant_id) &&
    (match p.2.root_cause with
     | none => false
     | some r => is_downstream r.service_name al.service_name)

/-- `group.related_alerts.append(alert); group.suppressed_count += 1` on the
matched group (the alert record still carries its pre-assignment fields; the
subsequent `setGroupId` pass updates the appended copy too). -/
def suppressAppend (al : Alert) (g : CorrelatedAlertGroup) :
    CorrelatedAlertGroup :=
  { g with related_alerts := g.related_alerts ++ [al],
           suppressed_count := g.suppressed_count + 1 }

/-- The first loop of `ingest_alert`: walk the groups in insertion order and
mutate the first one matching `suppression_match`, returning its id and the
updated group list, or `none` when no group matches. -/
def suppressGroups (al : Alert) :
    List (Nat × CorrelatedAlertGroup) →
      Option (Nat × List (Nat × CorrelatedAlertGroup))
  | [] => none
  | p :: rest =>
      if suppression_match al p then
        some (p.1, (p.1, suppressAppend al p.2) :: rest)
      else
        match suppressGroups al rest with
        | some (gid, rest') => some (gid, p :: rest')
        | none => none

/-- The `tenant_alerts` list comprehension of `ingest_alert`. -/
def tenant_window_alerts (buffer : List Alert) (al : Alert) (window : Int) :
    List Alert :=
  buffer.filter (fun a =>
    decide (a.tenant_id = al.tenant_id) && decide (a.id ≠ al.id) &&
      decide (al.timestamp - a.timestamp ≤ window))

/-- The `downstream_alerts` list comprehension of `ingest_alert`. -/
def downstream_alerts_of (buffer : List Alert) (al : Alert) (window : Int) :
    List Alert :=
  (tenant_window_alerts buffer al window).filter
    (fun a => is_downstream al.service_name a.service_name)

/-- Result of one `ingest_alert` call: Python's `CorrelatedAlertGroup | None`.
`suppressed` is the `None` return. -/
inductive IngestResult
  | suppressed
  | group (g : CorrelatedAlertGroup)
deriving DecidableEq, Repr

/-- `AlertCorrelationEngine.ingest_alert`.  `now` is the wall-clock instant of
the call (used by pruning and by the `started_at` default of groups created in
it).  In the root-cause and potential-root branches the returned group is the
very object stored in the map; its field values at return time are written out
explicitly (every `downstream_alerts` record has `id ≠ al.id` by construction,
so the final `correlated_group_id` assignments give the root record
`some gid` and every related record `some gid`). -/
def AlertCorrelationEngine.ingest_alert (s : AlertCorrelationEngine)
    (now : Int) (al : Alert) : AlertCorrelationEngine × IngestResult :=
  let s1 := s.prune_stale_alerts now
  let s2 := { s1 with alert_buffer := s1.alert_buffer ++ [al] }
  match suppressGroups al s2.correlation_groups with
  | some (gid, groups') =>
      let s3 := { s2 with correlation_groups := groups' }
      (s3.mapAlerts (Alert.setGroupId al.id gid), IngestResult.suppressed)
  | none =>
      let ds := downstream_alerts_of s2.alert_buffer al s.window_seconds
      if ds.isEmpty then
        if (SERVICE_DEPENDENCY_GRAPH.lookup al.service_name).isSome then
          -- potential root cause: register before any downstream alert arrives
          let s3 := s2.mapAlerts (Alert.setRootFlag al.id)
          let gid := s2.next_group_id
          let g : CorrelatedAlertGroup :=
            { group_id := gid,
              root_cause := some (Alert.setRootFlag al.id al),
              related_alerts := [], tenant_id := al.tenant_id,
              started_at := now, suppressed_count := 0 }
          let s4 := { s3 with
            correlation_groups := s3.correlation_groups ++ [(gid, g)],
            next_group_id := gid + 1 }
          let s5 := s4.mapAlerts (Alert.setGroupId al.id gid)
          (s5, IngestResult.group
            { group_id := gid,
              root_cause := some { al with is_root_cause := true,
                                           correlated_group_id := some gid },
              related_alerts := [], tenant_id := al.tenant_id,
              started_at := now, suppressed_count := 0 })
        else
          -- standalone alert from a service with no known dependents
          ({ s2 with next_group_id := s2.next_group_id + 1 },
           IngestResult.group
             { group_id := s2.next_group_id, root_cause := some al,
               related_alerts := [], tenant_id := al.tenant_id,
               started_at := now, suppressed_count := 0 })
      else
        -- root cause of already-buffered downstream alerts
        let s3 := s2.mapAlerts (Alert.setRootFlag al.id)
        let gid := s2.next_group_id
        let g : CorrelatedAlertGroup :=
          { group_id := gid,
            root_cause := some (Alert.setRootFlag al.id al),
            related_alerts := ds, tenant_id := al.tenant_id,
            started_at := now, suppressed_count := ds.length }
        let s4 := { s3 with
          correlation_groups := s3.correlation_groups ++ [(gid, g)],
          next_group_id := gid + 1 }
        let s5 := s4.mapAlerts (Alert.setGroupId al.id gid)
        let s6 := ds.foldl
          (fun st a => st.mapAlerts (Alert.setGroupId a.id gid)) s5
        (s6, IngestResult.group
          { group_id := gid,
            root_cause := some { al with is_root_cause := true,
                                         correlated_group_id := some gid },
            related_alerts :=
              ds.map (fun b => { b with correlated_group_id := some gid }),
            tenant_id := al.tenant_id,
            started_at := now, suppressed_count := ds.length })

/-! ### Query methods -/

/-- `AlertCorrelationEngine.get_active_groups`. -/
def AlertCorrelationEngine.get_active_groups (s : AlertCorrelationEngine) :
    List CorrelatedAlertGroup :=
  s.correlation_groups.map Prod.snd

/-- `AlertCorrelationEngine.get_group`. -/
def AlertCorrelationEngine.get_group (s : AlertCorrelationEngine)
    (group_id : Nat) : Option CorrelatedAlertGroup :=
  s.correlation_groups.lookup group_id

/-- The record of the alert object with id `aid`, read back from the buffer. -/
def AlertCorrelationEngine.findAlert (s : AlertCorrelationEngine) (aid : Nat) :
    Option Alert :=
  s.alert_buffer.find? (fun a => decide (a.id = aid))

/-- `AlertCorrelationEngine.get_statistics`. -/
def AlertCorrelationEngine.get_statistics (s : AlertCorrelationEngine) :
    Nat × Nat × Nat :=
  (s.correlation_groups.length, s.alert_buffer.length,
    (s.correlation_groups.map (fun p => p.2.suppressed_count)).sum)

/-! ### SLO burn-rate engine -/

/-- Shape of one `PrometheusClient.instant_query` response, as far as
`_query_scalar` distinguishes: the call raised, the `result` list was empty,
the first sample parsed to NaN, or it parsed to the finite float `v`. -/
inductive PromResponse
  | failure
  | empty
  | nanValue
  | value (v : ℚ)
deriving DecidableEq, Repr

/-- `SLOBurnRateEngine._query_scalar`: 0.0 on query failure, empty result or a
NaN sample, otherwise the sample value. -/
def query_scalar : PromResponse → ℚ
  | PromResponse.failure => 0
  | PromResponse.empty => 0
  | PromResponse.nanValue => 0
  | PromResponse.value v => v

/-- `SLOBurnRateEngine._build_error_rate_query`. -/
def build_error_rate_query (numerator_query denominator_query : String)
    (window_minutes : Int) : String :=
  let window := toString window_minutes ++ "m"
  "1 - (" ++ "  sum(increase((" ++ numerator_query ++ ")[" ++ window ++
    ":]))" ++ "  /" ++ "  sum(increase((" ++ denominator_query ++ ")[" ++
    window ++ ":]))" ++ ")"

/-- `BurnRateResult` dataclass of `core/slo_engine.py`. -/
structure BurnRateResult where
  slo_id : String
  target_percentage : ℚ
  window_days : Int
  total_error_budget_minutes : ℚ
  current_error_budget_minutes : ℚ
  error_budget_consumed_percentage : ℚ
  fast_burn_rate : ℚ
  slow_burn_rate : ℚ
  fast_burn_threshold : ℚ
  slow_burn_threshold : ℚ
  is_fast_burning : Bool
  is_slow_burning : Bool
  calculated_at : Int
deriving DecidableEq, Repr

/-- `SLOBurnRateEngine.calculate`.  The two backend calls
`instant_query(fast_query)` and `instant_query(slow_query)` are abstracted as
the response values `fast_response` and `slow_response`; `now` is the
`datetime.now` read for `calculated_at`.  All float arithmetic is modelled
over `ℚ`. -/
def SLOBurnRateEngine.calculate (slo_id : String) (target_percentage : ℚ)
    (window_days : Int) (fast_burn_threshold slow_burn_threshold : ℚ)
    (fast_window_minutes slow_window_minutes : Int)
    (fast_response slow_response : PromResponse) (now : Int) :
    BurnRateResult :=
  let slo_target := target_percentage / 100
  let error_rate_target := 1 - slo_target
  let fast_error_rate := query_scalar fast_response
  let slow_error_rate := query_scalar slow_response
  let fast_burn_rate :=
    if 0 < error_rate_target then fast_error_rate / error_rate_target else 0
  let slow_burn_rate :=
    if 0 < error_rate_target then slow_error_rate / error_rate_target else 0
  let window_minutes : ℚ := (window_days : ℚ) * 24 * 60
  let total_error_budget_minutes := window_minutes * error_rate_target
  let consumed_fraction :=
    min (slow_burn_rate * ((slow_window_minutes : ℚ) / window_minutes)) 1
  let current_error_budget_minutes :=
    total_error_budget_minutes * (1 - consumed_fraction)
  let error_budget_consumed_percentage := consumed_fraction * 100
  { slo_id := slo_id, target_percentage := target_percentage,
    window_days := window_days,
    total_error_budget_minutes := total_error_budget_minutes,
    current_error_budget_minutes := max current_error_budget_minutes 0,
    error_budget_consumed_percentage :=
      min error_budget_consumed_percentage 100,
    fast_burn_rate := fast_burn_rate, slow_burn_rate := slow_burn_rate,
    fast_burn_threshold := fast_burn_threshold,
    slow_burn_threshold := slow_burn_threshold,
    is_fast_burning := decide (fast_burn_threshold ≤ fast_burn_rate),
    is_slow_burning := decide (slow_burn_threshold ≤ slow_burn_rate),
    calculated_at := now }

/-! ### SLO adapter window math (`adapters/slo_engine.py`) -/

/-- The value computed by `SLOEngineAdapter.compute_sli` from the extracted
event counts: `good_events / total_events` guarded by `total_events > 0`,
else 1.0. -/
def compute_sli_value (good_events total_events : ℚ) : ℚ :=
  if 0 < total_events then good_events / total_events else 1

/-- `BurnRateWindow` dataclass of `adapters/slo_engine.py`. -/
structure BurnRateWindow where
  window : String
  burn_rate : ℚ
  threshold : ℚ
  is_burning : Bool
  error_rate : ℚ
  slo_target : ℚ
deriving DecidableEq, Repr

/-- `SLOEngineAdapter.compute_burn_rate_for_window`, on the event counts the
inner `compute_sli` extracted from its two backend responses. -/
def compute_burn_rate_for_window (target_percentage : ℚ) (window : String)
    (threshold : ℚ) (good_events total_events : ℚ) : BurnRateWindow :=
  let sli_value := compute_sli_value good_events total_events
  let error_rate := 1 - sli_value
  let slo_error_budget := 1 - target_percentage / 100
  let burn_rate :=
    if 0 < slo_error_budget then error_rate / slo_error_budget else 0
  { window := window, burn_rate := burn_rate, threshold := threshold,
    is_burning := decide (threshold ≤ burn_rate), error_rate := error_rate,
    slo_target := target_percentage }

/-! ### General lemmas about the embedding -/

theorem Alert.setGroupId_id (aid gid : Nat) (a : Alert) :
    (Alert.setGroupId aid gid a).id = a.id := by
  unfold Alert.setGroupId; split <;> rfl

theorem Alert.setGroupId_tenant (aid gid : Nat) (a : Alert) :
    (Alert.setGroupId aid gid a).tenant_id = a.tenant_id := by
  unfold Alert.setGroupId; split <;> rfl

theorem Alert.setGroupId_gid (aid gid : Nat) (a : Alert) :
    (Alert.setGroupId aid gid a).correlated_group_id = a.correlated_group_id ∨
      (Alert.setGroupId aid gid a).correlated_group_id = some gid := by
  unfold Alert.setGroupId; split
  · exact Or.inr rfl
  · exact Or.inl rfl

theorem Alert.setRootFlag_id (aid : Nat) (a : Alert) :
    (Alert.setRootFlag aid a).id = a.id := by
  unfold Alert.setRootFlag; split <;> rfl

theorem Alert.setRootFlag_tenant (aid : Nat) (a : Alert) :
    (Alert.setRootFlag aid a).tenant_id = a.tenant_id := by
  unfold Alert.setRootFlag; split <;> rfl

theorem Alert.setRootFlag_gid (aid : Nat) (a : Alert) :
    (Alert.setRootFlag aid a).correlated_group_id = a.correlated_group_id := by
  unfold Alert.setRootFlag; split <;> rfl

theorem CorrelatedAlertGroup.mapAlerts_started_at (f : Alert → Alert)
    (g : CorrelatedAlertGroup) :
    (CorrelatedAlertGroup.mapAlerts f g).started_at = g.started_at := rfl

theorem CorrelatedAlertGroup.mapAlerts_tenant (f : Alert → Alert)
    (g : CorrelatedAlertGroup) :
    (CorrelatedAlertGroup.mapAlerts f g).tenant_id = g.tenant_id := rfl

theorem AlertCorrelationEngine.mapAlerts_groups (f : Alert → Alert)
    (s : AlertCorrelationEngine) :
    (AlertCorrelationEngine.mapAlerts f s).correlation_groups =
      s.correlation_groups.map
        (fun p => (p.1, CorrelatedAlertGroup.mapAlerts f p.2)) := rfl

theorem AlertCorrelationEngine.mapAlerts_buffer (f : Alert → Alert)
    (s : AlertCorrelationEngine) :
    (AlertCorrelationEngine.mapAlerts f s).alert_buffer =
      s.alert_buffer.map f := rfl

/-- Members of the pruned group map are members of the original satisfying the
keep condition. -/
theorem prune_groups_mem {now : Int} {s : AlertCorrelationEngine}
    {p : Nat × CorrelatedAlertGroup}
    (h : p ∈ (s.prune_stale_alerts now).correlation_groups) :
    p ∈ s.correlation_groups ∧
      now - 2 * s.window_seconds ≤ p.2.started_at := by
  unfold AlertCorrelationEngine.prune_stale_alerts at h
  simp only [List.mem_filter, decide_eq_true_eq] at h
  exact h

/-- Members of the pruned buffer are members of the original satisfying the
keep condition. -/
theorem prune_buffer_mem {now : Int} {s : AlertCorrelationEngine} {a : Alert}
    (h : a ∈ (s.prune_stale_alerts now).alert_buffer) :
    a ∈ s.alert_buffer ∧ now - 2 * s.window_seconds < a.timestamp := by
  unfold AlertCorrelationEngine.prune_stale_alerts at h
  simp only at h
  rcases Decidable.em
      (s.max_buffer_size <
        (s.alert_buffer.filter
          (fun a => decide (now - 2 * s.window_seconds < a.timestamp))).length)
    with hc | hc
  · rw [if_pos hc] at h
    have h2 := List.mem_of_mem_drop h
    simpa only [List.mem_filter, decide_eq_true_eq] using h2
  · rw [if_neg hc] at h
    simpa only [List.mem_filter, decide_eq_true_eq] using h

/-- Where the first loop of `ingest_alert` finds no match, the group list is
untouched; characterisation of the `none` answer. -/
theorem suppressGroups_eq_none {al : Alert}
    {l : List (Nat × CorrelatedAlertGroup)} :
    suppressGroups al l = none ↔ ∀ p ∈ l, suppression_match al p = false := by
  induction l with
  | nil => simp [suppressGroups]
  | cons p rest ih =>
      unfold suppressGroups
      rcases hm : suppression_match al p with _ | _
      · simp only [hm, Bool.false_eq_true, if_false]
        rcases hr : suppressGroups al rest with _ | v
        · simp only [List.mem_cons]
          constructor
          · intro _ q hq
            rcases hq with hq | hq
            · rw [hq]; exact hm
            · exact (ih.mp hr) q hq
          · intro _; trivial
        · simp only [List.mem_cons]
          constructor
          · intro h; exact absurd h (by simp)
          · intro h
            have : suppressGroups al rest = none :=
              ih.mpr (fun q hq => h q (Or.inr hq))
            rw [this] at hr; exact absurd hr (by simp)
      · simp only [hm, if_true]
        constructor
        · intro h; exact absurd h (by simp)
        · intro h
          have := h p (List.mem_cons_self p rest)
          rw [hm] at this; exact absurd this (by simp)

/-- Where the first loop of `ingest_alert` finds a match: the matched pair is
in the input list, its key is returned, the updated pair replaces it, and
every pair of the output is either an untouched input pair or the updated
one. -/
theorem suppressGroups_eq_some {al : Alert}
    {l l' : List (Nat × CorrelatedAlertGroup)} {gid : Nat}
    (h : suppressGroups al l = some (gid, l')) :
    ∃ p ∈ l, suppression_match al p = true ∧ p.1 = gid ∧
      (p.1, suppressAppend al p.2) ∈ l' ∧
      ∀ q ∈ l', q ∈ l ∨ q = (p.1, suppressAppend al p.2) := by
  induction l generalizing l' with
  | nil => exact absurd h (by simp [suppressGroups])
  | cons p rest ih =>
      unfold suppressGroups at h
      rcases hm : suppression_match al p with _ | _
      · rw [hm] at h
        simp only [Bool.false_eq_true, if_false] at h
        rcases hr : suppressGroups al rest with _ | v
        · rw [hr] at h; exact absurd h (by simp)
        · rw [hr] at h
          obtain ⟨gid', rest'⟩ := v
          simp only [Option.some.injEq, Prod.mk.injEq] at h
          obtain ⟨hgid, hl'⟩ := h
          subst hgid
          obtain ⟨q, hq, hqm, hqk, hqmem, hqall⟩ := ih hr
          refine ⟨q, List.mem_cons_of_mem p hq, hqm, hqk, ?_, ?_⟩
          · rw [← hl']; exact List.mem_cons_of_mem p hqmem
          · intro r hr'
            rw [← hl'] at hr'
            rcases List.mem_cons.mp hr' with h1 | h1
            · exact Or.inl (h1 ▸ List.mem_cons_self p rest)
            · rcases hqall r h1 with h2 | h2
              · exact Or.inl (List.mem_cons_of_mem p h2)
              · exact Or.inr h2
      · rw [hm] at h
        simp only [if_true, Option.some.injEq, Prod.mk.injEq] at h
        obtain ⟨hgid, hl'⟩ := h
        refine ⟨p, List.mem_cons_self p rest, hm, hgid, ?_, ?_⟩
        · rw [← hl']; exact List.mem_cons_self _ _
        · intro r hr'
          rw [← hl'] at hr'
          rcases List.mem_cons.mp hr' with h1 | h1
          · exact Or.inr h1
          · exact Or.inl (List.mem_cons_of_mem p h1)

/-- A key-value pair that `List.lookup` returns is in the list. -/
theorem lookup_mem {gid : Nat} {g : CorrelatedAlertGroup}
    {l : List (Nat × CorrelatedAlertGroup)}
    (h : List.lookup gid l = some g) : (gid, g) ∈ l := by
  induction l with
  | nil => exact absurd h (by simp [List.lookup])
  | cons p rest ih =>
      rw [List.lookup] at h
      rcases hk : (gid == p.1) with _ | _
      · rw [hk] at h
        exact List.mem_cons_of_mem p (ih h)
      · rw [hk] at h
        simp only [Option.some.injEq] at h
        have hp1 : gid = p.1 := by simpa using hk
        have hp : p = (gid, g) := by
          cases p; simp_all
        exact hp ▸ List.mem_cons_self _ _

/-! ### Claim C9 -/

/-- A concrete alert from a service that is a key of the dependency graph,
ingested into a fresh engine, so that the potential-root-cause branch runs. -/
def c9_alert : Alert :=
  { id := 1, service_name := "aumos-data-layer", tenant_id := "tenant-A",
    severity := AlertSeverity.warning, message := "db down", timestamp := 0,
    labels := [], is_root_cause := false, correlated_group_id := none }

def c9_run : AlertCorrelationEngine × IngestResult :=
  (AlertCorrelationEngine.mk0 60 1000).ingest_alert 0 c9_alert

/-- The group the potential-root-cause branch registers for `c9_alert`. -/
def c9_group : CorrelatedAlertGroup :=
  { group_id := 0,
    root_cause := some { c9_alert with is_root_cause := true,
                                       correlated_group_id := some 0 },
    related_alerts := [], tenant_id := "tenant-A", started_at := 0,
    suppressed_count := 0 }

/-- C9 counterexample: ingesting an alert from `aumos-data-layer` (a service
with known dependents) into a fresh engine registers a "potential root cause"
group whose `root_cause` is PRESENT — it is the ingested alert itself — not
absent as the claim states. -/
theorem claim_C9_counterexample :
    c9_run.2 = IngestResult.group c9_group ∧
      c9_run.1.get_group 0 = some c9_group ∧
      c9_group.root_cause ≠ none ∧ c9_group.related_alerts = [] := by
  refine ⟨by decide, by decide, by decide, rfl⟩

/-- C9 amended: a group registered by the potential-root-cause branch (the
ingested alert's service has dependents in the graph, no suppressing group
matched, and no buffered downstream alert existed) has `root_cause` present
and equal to the ingested anchor alert (with `is_root_cause` set and
`correlated_group_id` stamped), and empty `related_alerts` with
`suppressed_count = 0`. -/
theorem claim_C9_potential_root_cause_is_anchor (s : AlertCorrelationEngine)
    (now : Int) (al : Alert)
    (h1 : suppressGroups al
      (s.prune_stale_alerts now).correlation_groups = none)
    (h2 : downstream_alerts_of
      ((s.prune_stale_alerts now).alert_buffer ++ [al]) al
      s.window_seconds = [])
    (h3 : (SERVICE_DEPENDENCY_GRAPH.lookup al.service_name).isSome = true) :
    (s.ingest_alert now al).2 = IngestResult.group
      { group_id := s.next_group_id,
        root_cause := some { al with is_root_cause := true,
                                     correlated_group_id :=
                                       some s.next_group_id },
        related_alerts := [], tenant_id := al.tenant_id,
        started_at := now, suppressed_count := 0 } ∧
      ((s.next_group_id,
        { group_id := s.next_group_id,
          root_cause := some { al with is_root_cause := true,
                                       correlated_group_id :=
                                         some s.next_group_id },
          related_alerts := [], tenant_id := al.tenant_id,
          started_at := now,
          suppressed_count := 0 }) : Nat × CorrelatedAlertGroup) ∈
        (s.ingest_alert now al).1.correlation_groups := by
  have hng : (s.prune_stale_alerts now).next_group_id = s.next_group_id := rfl
  unfold AlertCorrelationEngine.ingest_alert
  simp only [h1, h2, h3, List.isEmpty_nil, if_true]
  constructor
  · rfl
  · simp only [AlertCorrelationEngine.mapAlerts_groups, List.map_append,
      List.mem_append, List.map_cons, List.map_nil]
    refine Or.inr ?_
    simp only [List.mem_singleton]
    unfold CorrelatedAlertGroup.mapAlerts
    simp [Alert.setRootFlag, Alert.setGroupId, hng]

/-- C9 amended-theorem witness at the concrete `c9_alert` input. -/
theorem claim_C9_witness :
    ((AlertCorrelationEngine.mk0 60 1000).ingest_alert 0 c9_alert).2 =
      IngestResult.group
        { group_id := 0,
          root_cause := some { c9_alert with is_root_cause := true,
                                             correlated_group_id := some 0 },
          related_alerts := [], tenant_id := c9_alert.tenant_id,
          started_at := 0, suppressed_count := 0 } ∧
      ((0 : Nat),
        ({ group_id := 0,
           root_cause := some { c9_alert with is_root_cause := true,
                                              correlated_group_id := some 0 },
           related_alerts := [], tenant_id := c9_alert.tenant_id,
           started_at := 0,
           suppressed_count := 0 } : CorrelatedAlertGroup)) ∈
        ((AlertCorrelationEngine.mk0 60 1000).ingest_alert 0
          c9_alert).1.correlation_groups :=
  claim_C9_potential_root_cause_is_anchor (AlertCorrelationEngine.mk0 60 1000)
    0 c9_alert (by decide) (by decide) (by decide)

/-! ### Claim C7 -/

theorem suppressAppend_started_at (al : Alert) (g : CorrelatedAlertGroup) :
    (suppressAppend al g).started_at = g.started_at := rfl

theorem suppressAppend_tenant (al : Alert) (g : CorrelatedAlertGroup) :
    (suppressAppend al g).tenant_id = g.tenant_id := rfl

theorem mapAlerts_groups_mem {f : Alert → Alert} {s : AlertCorrelationEngine}
    {p : Nat × CorrelatedAlertGroup}
    (h : p ∈ (s.mapAlerts f).correlation_groups) :
    ∃ q ∈ s.correlation_groups,
      p = (q.1, CorrelatedAlertGroup.mapAlerts f q.2) := by
  rw [AlertCorrelationEngine.mapAlerts_groups] at h
  obtain ⟨q, hq, hq2⟩ := List.mem_map.mp h
  exact ⟨q, hq, hq2.symm⟩

/-- The trailing `correlated_group_id` assignments of the root-cause branch
leave each group's key, `started_at` and `tenant_id` unchanged. -/
theorem foldl_setGroupId_groups_mem (gid : Nat) (ds : List Alert) :
    ∀ (st : AlertCorrelationEngine)
      (p : Nat × CorrelatedAlertGroup),
      p ∈ (ds.foldl
        (fun st a =>
          AlertCorrelationEngine.mapAlerts (Alert.setGroupId a.id gid) st)
        st).correlation_groups →
      ∃ q ∈ st.correlation_groups, p.1 = q.1 ∧
        p.2.started_at = q.2.started_at ∧ p.2.tenant_id = q.2.tenant_id := by
  induction ds with
  | nil => exact fun st p hp => ⟨p, hp, rfl, rfl, rfl⟩
  | cons a rest ih =>
      intro st p hp
      rw [List.foldl_cons] at hp
      obtain ⟨q, hq, h1, h2, h3⟩ := ih _ p hp
      obtain ⟨r, hr, hr2⟩ := mapAlerts_groups_mem hq
      refine ⟨r, hr, ?_, ?_, ?_⟩
      · rw [h1, hr2]
      · rw [h2, hr2]; rfl
      · rw [h3, hr2]; rfl

/-- Every group pair present after one `ingest_alert` call either survived
this call's pruning (so `started_at` is within the cutoff) or was created in
this call with `started_at = now`. -/
theorem ingest_groups_started_at (s : AlertCorrelationEngine) (now : Int)
    (al : Alert) (hw : 0 ≤ s.window_seconds) :
    ∀ p ∈ (s.ingest_alert now al).1.correlation_groups,
      now - 2 * s.window_seconds ≤ p.2.started_at := by
  intro p hp
  have hcut : now - 2 * s.window_seconds ≤ now := by omega
  unfold AlertCorrelationEngine.ingest_alert at hp
  rcases hsup : suppressGroups al
      (s.prune_stale_alerts now).correlation_groups with _ | v
  · simp only [hsup] at hp
    rcases hds : (downstream_alerts_of
        ((s.prune_stale_alerts now).alert_buffer ++ [al]) al
        s.window_seconds).isEmpty with _ | _
    · simp only [hds, Bool.false_eq_true, if_false] at hp
      obtain ⟨q, hq, _, h2, _⟩ := foldl_setGroupId_groups_mem _ _ _ p hp
      obtain ⟨r, hr, hr2⟩ := mapAlerts_groups_mem hq
      rcases List.mem_append.mp hr with h1 | h1
      · obtain ⟨t, ht, ht2⟩ := mapAlerts_groups_mem (s := _) h1
        have := (prune_groups_mem ht).2
        rw [h2, hr2, ht2]
        simpa using this
      · simp only [List.mem_singleton] at h1
        rw [h2, hr2, h1]
        simpa [CorrelatedAlertGroup.mapAlerts_started_at] using hcut
    · simp only [hds, if_true] at hp
      rcases hkey :
          (SERVICE_DEPENDENCY_GRAPH.lookup al.service_name).isSome with _ | _
      · simp only [hkey, Bool.false_eq_true, if_false] at hp
        exact (prune_groups_mem hp).2
      · simp only [hkey, if_true] at hp
        obtain ⟨q, hq, hq2⟩ := mapAlerts_groups_mem hp
        rcases List.mem_append.mp hq with h1 | h1
        · obtain ⟨r, hr, hr2⟩ := mapAlerts_groups_mem (s := _) h1
          have := (prune_groups_mem hr).2
          rw [hq2, hr2]
          simpa using this
        · simp only [List.mem_singleton] at h1
          rw [hq2, h1]
          simpa [CorrelatedAlertGroup.mapAlerts_started_at] using hcut
  · obtain ⟨gid, groups'⟩ := v
    simp only [hsup] at hp
    obtain ⟨q, hq, hq2⟩ := mapAlerts_groups_mem hp
    obtain ⟨r, hr, _, _, hrep, hall⟩ := suppressGroups_eq_some hsup
    rcases hall q hq with h1 | h1
    · have := (prune_groups_mem h1).2
      rw [hq2]
      simpa using this
    · have := (prune_groups_mem hr).2
      rw [hq2, h1]
      simpa [suppressAppend_started_at] using this

/-- C7: after any `ingest_alert` call at instant `now` (pruning runs at the
start of that call and nowhere else — the model has no other
group-removing operation), a group whose `started_at` is older than
`2 × window_seconds` is absent: `get_group` returns `none` for its id, and it
is not in `get_active_groups()`. -/
theorem claim_C7_stale_groups_pruned (s : AlertCorrelationEngine) (now : Int)
    (al : Alert) (hw : 0 ≤ s.window_seconds) :
    (∀ gid g, (s.ingest_alert now al).1.get_group gid = some g →
        now - 2 * s.window_seconds ≤ g.started_at) ∧
      (∀ g ∈ (s.ingest_alert now al).1.get_active_groups,
        now - 2 * s.window_seconds ≤ g.started_at) := by
  constructor
  · intro gid g h
    exact ingest_groups_started_at s now al hw (gid, g) (lookup_mem h)
  · intro g hg
    unfold AlertCorrelationEngine.get_active_groups at hg
    obtain ⟨p, hp, hp2⟩ := List.mem_map.mp hg
    have := ingest_groups_started_at s now al hw p hp
    rw [hp2] at this
    exact this

/-- C7 witness: concrete engine in which a group created at instant 0 is gone
after an ingest at instant 1000 (window 60, so cutoff 880). -/
theorem claim_C7_witness :
    (0 : Int) ≤ (60 : Int) ∧
      (∀ gid g,
        (((AlertCorrelationEngine.mk0 60 1000).ingest_alert 0
            c9_alert).1.ingest_alert 1000
              { c9_alert with id := 7, timestamp := 1000 }).1.get_group gid =
            some g →
          1000 - 2 * 60 ≤ g.started_at) := by
  have h := claim_C7_stale_groups_pruned
    ((AlertCorrelationEngine.mk0 60 1000).ingest_alert 0 c9_alert).1 1000
    { c9_alert with id := 7, timestamp := 1000 } (by decide)
  exact ⟨by decide, fun gid g hg => h.1 gid g hg⟩

/-! ### Claim C4 -/

/-- Membership in the `downstream_alerts` list comprehension, spelled out. -/
theorem downstream_alerts_mem {buffer : List Alert} {al a : Alert} {w : Int} :
    a ∈ downstream_alerts_of buffer al w ↔
      a ∈ buffer ∧ a.tenant_id = al.tenant_id ∧ a.id ≠ al.id ∧
        al.timestamp - a.timestamp ≤ w ∧
        is_downstream al.service_name a.service_name = true := by
  unfold downstream_alerts_of tenant_window_alerts
  simp only [List.mem_filter, Bool.and_eq_true, decide_eq_true_eq]
  tauto

/-- The tenant part of a group's documented invariant: the root cause and all
related alerts carry the group's tenant. -/
def CorrelatedAlertGroup.tenantConsistent (g : CorrelatedAlertGroup) : Prop :=
  (∀ r, g.root_cause = some r → r.tenant_id = g.tenant_id) ∧
    ∀ a ∈ g.related_alerts, a.tenant_id = g.tenant_id

/-- Tenant consistency of every registered group of an engine state. -/
def AlertCorrelationEngine.tenantOK (s : AlertCorrelationEngine) : Prop :=
  ∀ p ∈ s.correlation_groups, p.2.tenantConsistent

/-- Field assignments (`is_root_cause`, `correlated_group_id`) never change an
alert record's tenant, so they preserve a group's tenant consistency. -/
theorem tenantConsistent_mapAlerts {f : Alert → Alert}
    (hf : ∀ a, (f a).tenant_id = a.tenant_id) {g : CorrelatedAlertGroup}
    (hg : g.tenantConsistent) :
    (CorrelatedAlertGroup.mapAlerts f g).tenantConsistent := by
  obtain ⟨h1, h2⟩ := hg
  constructor
  · intro r hr
    unfold CorrelatedAlertGroup.mapAlerts at hr
    simp only [Option.map_eq_some'] at hr
    obtain ⟨r0, hr0, hr0f⟩ := hr
    rw [← hr0f, hf r0]
    exact h1 r0 hr0
  · intro a ha
    unfold CorrelatedAlertGroup.mapAlerts at ha
    simp only [List.mem_map] at ha
    obtain ⟨a0, ha0, ha0f⟩ := ha
    rw [← ha0f, hf a0]
    exact h2 a0 ha0

theorem tenantOK_mapAlerts {f : Alert → Alert}
    (hf : ∀ a, (f a).tenant_id = a.tenant_id) {s : AlertCorrelationEngine}
    (hs : s.tenantOK) : (s.mapAlerts f).tenantOK := by
  intro p hp
  obtain ⟨q, hq, hq2⟩ := mapAlerts_groups_mem hp
  rw [hq2]
  exact tenantConsistent_mapAlerts hf (hs q hq)

theorem tenantOK_foldl_setGroupId {gid : Nat} (ds : List Alert) :
    ∀ (st : AlertCorrelationEngine), st.tenantOK →
      (ds.foldl
        (fun st a =>
          AlertCorrelationEngine.mapAlerts (Alert.setGroupId a.id gid) st)
        st).tenantOK := by
  induction ds with
  | nil => exact fun st h => h
  | cons a rest ih =>
      intro st h
      rw [List.foldl_cons]
      exact ih _ (tenantOK_mapAlerts (Alert.setGroupId_tenant a.id gid) h)

/-- C4: tenant isolation.  The fresh engine is tenant-consistent, and
`ingest_alert` preserves tenant consistency of every registered group: the
root cause and every related (suppressed or swept-up) alert of a group carry
the group's tenant.  Since alert records' tenant fields are never mutated, an
alert from tenant X is never appended to — nor made root of — a group of
tenant Y, whatever the service names and timestamps. -/
theorem claim_C4_tenant_isolation (w : Int) (m : Nat)
    (s : AlertCorrelationEngine) (now : Int) (al : Alert) :
    (AlertCorrelationEngine.mk0 w m).tenantOK ∧
      (s.tenantOK → (s.ingest_alert now al).1.tenantOK) := by
  constructor
  · intro p hp
    exact absurd hp (List.not_mem_nil p)
  · intro hs
    have hpruned : (s.prune_stale_alerts now).tenantOK := by
      intro p hp
      exact hs p (prune_groups_mem hp).1
    unfold AlertCorrelationEngine.ingest_alert
    rcases hsup : suppressGroups al
        (s.prune_stale_alerts now).correlation_groups with _ | v
    · simp only [hsup]
      rcases hds : (downstream_alerts_of
          ((s.prune_stale_alerts now).alert_buffer ++ [al]) al
          s.window_seconds).isEmpty with _ | _
      · simp only [hds, Bool.false_eq_true, if_false]
        apply tenantOK_foldl_setGroupId
        apply tenantOK_mapAlerts (Alert.setGroupId_tenant al.id _)
        intro p hp
        rcases List.mem_append.mp hp with h1 | h1
        · obtain ⟨q, hq, hq2⟩ := mapAlerts_groups_mem (s := _) h1
          rw [hq2]
          exact tenantConsistent_mapAlerts (Alert.setRootFlag_tenant al.id)
            (hpruned q hq)
        · simp only [List.mem_singleton] at h1
          rw [h1]
          constructor
          · intro r hr
            simp only [Option.some.injEq] at hr
            rw [← hr, Alert.setRootFlag_tenant]
          · intro a ha
            exact (downstream_alerts_mem.mp ha).2.1
      · simp only [hds, if_true]
        rcases hkey :
            (SERVICE_DEPENDENCY_GRAPH.lookup al.service_name).isSome with _ | _
        · simp only [hkey, Bool.false_eq_true, if_false]
          exact hpruned
        · simp only [hkey, if_true]
          apply tenantOK_mapAlerts (Alert.setGroupId_tenant al.id _)
          intro p hp
          rcases List.mem_append.mp hp with h1 | h1
          · obtain ⟨q, hq, hq2⟩ := mapAlerts_groups_mem (s := _) h1
            rw [hq2]
            exact tenantConsistent_mapAlerts (Alert.setRootFlag_tenant al.id)
              (hpruned q hq)
          · simp only [List.mem_singleton] at h1
            rw [h1]
            constructor
            · intro r hr
              simp only [Option.some.injEq] at hr
              rw [← hr, Alert.setRootFlag_tenant]
            · intro a ha
              exact absurd ha (List.not_mem_nil a)
    · obtain ⟨gid, groups'⟩ := v
      simp only [hsup]
      apply tenantOK_mapAlerts (Alert.setGroupId_tenant al.id _)
      intro p hp
      obtain ⟨r, hr, hmatch, _, _, hall⟩ := suppressGroups_eq_some hsup
      rcases hall p hp with h1 | h1
      · exact hpruned p h1
      · rw [h1]
        unfold suppression_match at hmatch
        simp only [Bool.and_eq_true, decide_eq_true_eq] at hmatch
        obtain ⟨htenant, _⟩ := hmatch
        have hr2 := hpruned r hr
        constructor
        · intro r0 hr0
          exact hr2.1 r0 hr0
        · intro a ha
          unfold suppressAppend at ha
          simp only [List.mem_append, List.mem_singleton] at ha
          rcases ha with ha | ha
          · exact hr2.2 a ha
          · rw [ha]
            exact htenant.symm

/-- C4 witness: the preservation applied on a concrete tenant-consistent state
after one concrete ingestion. -/
theorem claim_C4_witness :
    ((AlertCorrelationEngine.mk0 60 1000).ingest_alert 0 c9_alert).1.tenantOK := by
  have h0 := (claim_C4_tenant_isolation 60 1000
    (AlertCorrelationEngine.mk0 60 1000) 0 c9_alert).1
  exact (claim_C4_tenant_isolation 60 1000
    (AlertCorrelationEngine.mk0 60 1000) 0 c9_alert).2 h0

/-! ### Claim C10 -/

/-- C10: if after this call's pruning some registered group matches the
ingested alert (same tenant, root present, alert's service downstream of the
root's service), the alert is suppressed into the first matching group — with
NO hypothesis on `al.timestamp` relative to the group or its root: the
suppression loop checks no timestamp at all.  The only temporal bound is
pruning: the suppressing group necessarily satisfies
`now - 2 * window_seconds ≤ started_at`, i.e. suppression through a group
continues up to `2 × window_seconds` after the group's `started_at`, twice
the `window_seconds` bound of the buffered-downstream scan. -/
theorem claim_C10_suppression_unbounded_by_window (s : AlertCorrelationEngine)
    (now : Int) (al : Alert)
    (h : ∃ p ∈ (s.prune_stale_alerts now).correlation_groups,
      suppression_match al p = true) :
    (s.ingest_alert now al).2 = IngestResult.suppressed ∧
      ∃ gid g, (gid, g) ∈ (s.ingest_alert now al).1.correlation_groups ∧
        (∃ b ∈ g.related_alerts,
          b.id = al.id ∧ b.correlated_group_id = some gid) ∧
        now - 2 * s.window_seconds ≤ g.started_at := by
  obtain ⟨p0, hp0, hp0m⟩ := h
  rcases hsup : suppressGroups al
      (s.prune_stale_alerts now).correlation_groups with _ | v
  · have := suppressGroups_eq_none.mp hsup p0 hp0
    rw [hp0m] at this
    exact absurd this (by simp)
  · obtain ⟨gid, groups'⟩ := v
    obtain ⟨r, hr, hrm, hrk, hrep, hall⟩ := suppressGroups_eq_some hsup
    unfold AlertCorrelationEngine.ingest_alert
    simp only [hsup]
    refine ⟨by simp, gid, CorrelatedAlertGroup.mapAlerts
      (Alert.setGroupId al.id gid) (suppressAppend al r.2), ?_, ?_, ?_⟩
    · rw [AlertCorrelationEngine.mapAlerts_groups]
      refine List.mem_map.mpr ⟨(r.1, suppressAppend al r.2), hrep, ?_⟩
      rw [hrk]
    · refine ⟨Alert.setGroupId al.id gid al, ?_, ?_, ?_⟩
      · unfold CorrelatedAlertGroup.mapAlerts suppressAppend
        simp only [List.map_append, List.mem_append, List.map_cons,
          List.map_nil, List.mem_singleton]
        simp
      · exact Alert.setGroupId_id al.id gid al
      · unfold Alert.setGroupId
        simp
    · rw [CorrelatedAlertGroup.mapAlerts_started_at,
        suppressAppend_started_at]
      exact (prune_groups_mem hr).2

/-- C10 witness: a downstream alert timestamped 100 seconds after the root
(outside the 60-second scan window) is still suppressed into the existing
group, because the suppression loop has no window check. -/
theorem claim_C10_witness :
    (∃ p ∈ ((((AlertCorrelationEngine.mk0 60 1000).ingest_alert 0
          c9_alert).1).prune_stale_alerts 100).correlation_groups,
        suppression_match
          { id := 9, service_name := "aumos-governance-engine",
            tenant_id := "tenant-A", severity := AlertSeverity.warning,
            message := "late child", timestamp := 100, labels := [],
            is_root_cause := false, correlated_group_id := none } p = true) ∧
      ((((AlertCorrelationEngine.mk0 60 1000).ingest_alert 0
          c9_alert).1).ingest_alert 100
            { id := 9, service_name := "aumos-governance-engine",
              tenant_id := "tenant-A", severity := AlertSeverity.warning,
              message := "late child", timestamp := 100, labels := [],
              is_root_cause := false,
              correlated_group_id := none }).2 = IngestResult.suppressed := by
  have hm : ∃ p ∈ ((((AlertCorrelationEngine.mk0 60 1000).ingest_alert 0
      c9_alert).1).prune_stale_alerts 100).correlation_groups,
      suppression_match
        { id := 9, service_name := "aumos-governance-engine",
          tenant_id := "tenant-A", severity := AlertSeverity.warning,
          message := "late child", timestamp := 100, labels := [],
          is_root_cause := false, correlated_group_id := none } p = true := by
    decide
  exact ⟨hm, (claim_C10_suppression_unbounded_by_window _ 100 _ hm).1⟩

/-! ### Claim C5 -/

/-- C5: window boundary of the buffered-downstream scan.  For a buffered
same-tenant downstream alert `b` (present after this call's pruning) and an
ingested upstream alert `al` that no existing group suppresses: if `b` is
timestamped strictly more than `window_seconds` before `al` it is NOT swept
into the scan (hence not into any new group); if it is timestamped less than
`window_seconds` before `al` it IS in the scan, a root-cause group is created
and the returned group's `related_alerts` contain `b` (stamped with the new
group id).  At exactly `window_seconds` the code includes the alert (`<=`);
the claim leaves that boundary unspecified. -/
theorem claim_C5_window_boundary (s : AlertCorrelationEngine) (now : Int)
    (al b : Alert)
    (hb : b ∈ (s.prune_stale_alerts now).alert_buffer)
    (ht : b.tenant_id = al.tenant_id)
    (hid : b.id ≠ al.id)
    (hdown : is_downstream al.service_name b.service_name = true)
    (hnosup : suppressGroups al
      (s.prune_stale_alerts now).correlation_groups = none) :
    (s.window_seconds < al.timestamp - b.timestamp →
        b ∉ downstream_alerts_of
          ((s.prune_stale_alerts now).alert_buffer ++ [al]) al
          s.window_seconds) ∧
      (al.timestamp - b.timestamp < s.window_seconds →
        b ∈ downstream_alerts_of
          ((s.prune_stale_alerts now).alert_buffer ++ [al]) al
          s.window_seconds ∧
        ∃ g, (s.ingest_alert now al).2 = IngestResult.group g ∧
          { b with correlated_group_id := some g.group_id } ∈
            g.related_alerts) := by
  constructor
  · intro hlate hmem
    have := (downstream_alerts_mem.mp hmem).2.2.2.1
    omega
  · intro hearly
    have hmem : b ∈ downstream_alerts_of
        ((s.prune_stale_alerts now).alert_buffer ++ [al]) al
        s.window_seconds := by
      refine downstream_alerts_mem.mpr
        ⟨List.mem_append.mpr (Or.inl hb), ht, hid, by omega, hdown⟩
    refine ⟨hmem, ?_⟩
    have hne : (downstream_alerts_of
        ((s.prune_stale_alerts now).alert_buffer ++ [al]) al
        s.window_seconds).isEmpty = false := by
      rcases hds : downstream_alerts_of
          ((s.prune_stale_alerts now).alert_buffer ++ [al]) al
          s.window_seconds with _ | _
      · rw [hds] at hmem
        exact absurd hmem (List.not_mem_nil b)
      · rfl
    unfold AlertCorrelationEngine.ingest_alert
    simp only [hnosup, hne, Bool.false_eq_true, if_false]
    refine ⟨_, rfl, ?_⟩
    exact List.mem_map.mpr ⟨b, hmem, rfl⟩

/-- C5 witness: window 60, upstream at t=70; a buffered downstream alert at
t=60 (10 seconds before, inside the window) lands in the new group's
`related_alerts`. -/
theorem claim_C5_witness :
    (10 : Int) < 60 ∧
      ∃ g, (({ window_seconds := 60, max_buffer_size := 1000,
               alert_buffer :=
                 [{ id := 2, service_name := "aumos-governance-engine",
                    tenant_id := "tenant-A",
                    severity := AlertSeverity.warning, message := "child",
                    timestamp := 60, labels := [], is_root_cause := false,
                    correlated_group_id := none }],
               correlation_groups := [], next_group_id := 0 } :
                 AlertCorrelationEngine).ingest_alert 70
          { id := 1, service_name := "aumos-data-layer",
            tenant_id := "tenant-A", severity := AlertSeverity.warning,
            message := "root", timestamp := 70, labels := [],
            is_root_cause := false, correlated_group_id := none }).2 =
          IngestResult.group g ∧
        ({ id := 2, service_name := "aumos-governance-engine",
           tenant_id := "tenant-A", severity := AlertSeverity.warning,
           message := "child", timestamp := 60, labels := [],
           is_root_cause := false,
           correlated_group_id := some g.group_id } : Alert) ∈
          g.related_alerts := by
  refine ⟨by decide, ?_⟩
  exact ((claim_C5_window_boundary
    { window_seconds := 60, max_buffer_size := 1000,
      alert_buffer :=
        [{ id := 2, service_name := "aumos-governance-engine",
           tenant_id := "tenant-A", severity := AlertSeverity.warning,
           message := "child", timestamp := 60, labels := [],
           is_root_cause := false, correlated_group_id := none }],
      correlation_groups := [], next_group_id := 0 } 70
    { id := 1, service_name := "aumos-data-layer", tenant_id := "tenant-A",
      severity := AlertSeverity.warning, message := "root", timestamp := 70,
      labels := [], is_root_cause := false, correlated_group_id := none }
    { id := 2, service_name := "aumos-governance-engine",
      tenant_id := "tenant-A", severity := AlertSeverity.warning,
      message := "child", timestamp := 60, labels := [],
      is_root_cause := false, correlated_group_id := none }
    (by decide) (by decide) (by decide) (by decide) (by decide)).2
    (by decide)).2

/-! ### Claim C1 -/

/-- Alert records stored inside a list of groups (each group's root cause and
related alerts). -/
def groupRecords (l : List (Nat × CorrelatedAlertGroup)) : List Alert :=
  (l.map (fun p => p.2.root_cause.toList ++ p.2.related_alerts)).join

/-- Every alert record the engine currently stores: buffer entries plus every
group's root cause and related alerts (in Python these are aliases of the
same objects; here, synchronized copies). -/
def AlertCorrelationEngine.allAlertRecords (s : AlertCorrelationEngine) :
    List Alert :=
  s.alert_buffer ++ groupRecords s.correlation_groups

theorem mem_groupRecords {l : List (Nat × CorrelatedAlertGroup)} {a : Alert} :
    a ∈ groupRecords l ↔
      ∃ p ∈ l, a ∈ p.2.root_cause.toList ++ p.2.related_alerts := by
  unfold groupRecords
  simp only [List.mem_join, List.mem_map]
  constructor
  · rintro ⟨L, ⟨p, hp, rfl⟩, ha⟩
    exact ⟨p, hp, ha⟩
  · rintro ⟨p, hp, ha⟩
    exact ⟨_, ⟨p, hp, rfl⟩, ha⟩

theorem allAlertRecords_mapAlerts (f : Alert → Alert)
    (s : AlertCorrelationEngine) :
    (s.mapAlerts f).allAlertRecords = s.allAlertRecords.map f := by
  unfold AlertCorrelationEngine.allAlertRecords groupRecords
    AlertCorrelationEngine.mapAlerts CorrelatedAlertGroup.mapAlerts
  simp only [List.map_append, List.map_map, List.map_join]
  congr 1
  congr 1
  apply List.map_congr_left
  intro p _
  simp only [Function.comp_apply, List.map_append]
  congr 1
  cases p.2.root_cause <;> rfl

/-- Record provenance: every record of a state traces back to `base` by
object id, reflecting an unset `correlated_group_id`. -/
def TracesTo (s' : AlertCorrelationEngine) (base : List Alert) : Prop :=
  ∀ a' ∈ s'.allAlertRecords, ∃ a ∈ base, a.id = a'.id ∧
    (a'.correlated_group_id = none → a.correlated_group_id = none)

theorem tracesTo_mapAlerts {f : Alert → Alert}
    (hid : ∀ a, (f a).id = a.id)
    (hnone : ∀ a, (f a).correlated_group_id = none →
      a.correlated_group_id = none)
    {st : AlertCorrelationEngine} {base : List Alert}
    (h : TracesTo st base) : TracesTo (st.mapAlerts f) base := by
  intro a' ha'
  rw [allAlertRecords_mapAlerts] at ha'
  obtain ⟨b, hb, hbf⟩ := List.mem_map.mp ha'
  obtain ⟨a, ha, haid, hanone⟩ := h b hb
  exact ⟨a, ha, by rw [haid, ← hbf, hid],
    fun hx => hanone (hnone b (hbf ▸ hx))⟩

theorem setGroupId_none_reflects (aid gid : Nat) (a : Alert) :
    (Alert.setGroupId aid gid a).correlated_group_id = none →
      a.correlated_group_id = none := by
  rcases Alert.setGroupId_gid aid gid a with h | h
  · intro h2; rw [← h]; exact h2
  · intro h2; rw [h] at h2; exact absurd h2 (by simp)

theorem setRootFlag_none_reflects (aid : Nat) (a : Alert) :
    (Alert.setRootFlag aid a).correlated_group_id = none →
      a.correlated_group_id = none := by
  rw [Alert.setRootFlag_gid]; exact fun h => h

theorem tracesTo_foldl {gid : Nat} {ds : List Alert} {base : List Alert} :
    ∀ {st : AlertCorrelationEngine}, TracesTo st base →
      TracesTo (ds.foldl
        (fun st a =>
          AlertCorrelationEngine.mapAlerts (Alert.setGroupId a.id gid) st)
        st) base := by
  induction ds with
  | nil => exact fun h => h
  | cons d rest ih =>
      intro st h
      rw [List.foldl_cons]
      exact ih (tracesTo_mapAlerts (Alert.setGroupId_id d.id gid)
        (setGroupId_none_reflects d.id gid) h)

/-- Registering one new group preserves provenance as long as the new group's
own records trace to the base. -/
theorem tracesTo_append_group {st : AlertCorrelationEngine}
    {base : List Alert} {gid : Nat} {g : CorrelatedAlertGroup} {nid : Nat}
    (h : TracesTo st base)
    (hg : ∀ b ∈ g.root_cause.toList ++ g.related_alerts, ∃ a ∈ base,
      a.id = b.id ∧
        (b.correlated_group_id = none → a.correlated_group_id = none)) :
    TracesTo { st with
      correlation_groups := st.correlation_groups ++ [(gid, g)],
      next_group_id := nid } base := by
  intro b hb
  have hb' : b ∈ st.alert_buffer ++
      groupRecords (st.correlation_groups ++ [(gid, g)]) := hb
  rcases List.mem_append.mp hb' with h1 | h1
  · exact h b (List.mem_append.mpr (Or.inl h1))
  · obtain ⟨p, hp, hpb⟩ := mem_groupRecords.mp h1
    rcases List.mem_append.mp hp with h2 | h2
    · exact h b (List.mem_append.mpr (Or.inr (mem_groupRecords.mpr ⟨p, h2, hpb⟩)))
    · simp only [List.mem_singleton] at h2
      rw [h2] at hpb
      exact hg b hpb

/-- The suppression loop's group mutation preserves provenance: the only new
record is the ingested alert appended to the matched group. -/
theorem tracesTo_suppress {st : AlertCorrelationEngine} {base : List Alert}
    {al : Alert} {gid : Nat} {groups' : List (Nat × CorrelatedAlertGroup)}
    (h : TracesTo st base)
    (hal : ∃ a ∈ base, a.id = al.id ∧
      (al.correlated_group_id = none → a.correlated_group_id = none))
    (hsup : suppressGroups al st.correlation_groups = some (gid, groups')) :
    TracesTo { st with correlation_groups := groups' } base := by
  intro b hb
  have hb' : b ∈ st.alert_buffer ++ groupRecords groups' := hb
  rcases List.mem_append.mp hb' with h1 | h1
  · exact h b (List.mem_append.mpr (Or.inl h1))
  · obtain ⟨p, hp, hpb⟩ := mem_groupRecords.mp h1
    obtain ⟨r, hr, _, _, _, hall⟩ := suppressGroups_eq_some hsup
    rcases hall p hp with h2 | h2
    · exact h b (List.mem_append.mpr (Or.inr (mem_groupRecords.mpr ⟨p, h2, hpb⟩)))
    · rw [h2] at hpb
      unfold suppressAppend at hpb
      simp only [List.append_assoc, List.mem_append,
        List.mem_singleton] at hpb
      rcases hpb with h3 | h3 | h3
      · exact h b (List.mem_append.mpr (Or.inr (mem_groupRecords.mpr
          ⟨r, hr, List.mem_append.mpr (Or.inl h3)⟩)))
      · exact h b (List.mem_append.mpr (Or.inr (mem_groupRecords.mpr
          ⟨r, hr, List.mem_append.mpr (Or.inr h3)⟩)))
      · rw [h3]; exact hal

/-- Records of the state after this call's pruning and buffer append trace to
the ingested alert or to a pre-call record. -/
theorem tracesTo_prune_append (s : AlertCorrelationEngine) (now : Int)
    (al : Alert) :
    TracesTo { s.prune_stale_alerts now with
      alert_buffer := (s.prune_stale_alerts now).alert_buffer ++ [al] }
      (al :: s.allAlertRecords) := by
  intro b hb
  have hb' : b ∈ ((s.prune_stale_alerts now).alert_buffer ++ [al]) ++
      groupRecords (s.prune_stale_alerts now).correlation_groups := hb
  simp only [List.append_assoc, List.mem_append,
    List.mem_singleton] at hb'
  rcases hb' with h1 | h1 | h1
  · refine ⟨b, List.mem_cons_of_mem al ?_, rfl, fun h => h⟩
    exact List.mem_append.mpr (Or.inl (prune_buffer_mem h1).1)
  · rw [h1]
    exact ⟨al, List.mem_cons_self al _, rfl, fun h => h⟩
  · obtain ⟨p, hp, hpb⟩ := mem_groupRecords.mp h1
    refine ⟨b, List.mem_cons_of_mem al ?_, rfl, fun h => h⟩
    exact List.mem_append.mpr (Or.inr (mem_groupRecords.mpr
      ⟨p, (prune_groups_mem hp).1, hpb⟩))

/-- Provenance of every record after one `ingest_alert` call. -/
theorem ingest_tracesTo (s : AlertCorrelationEngine) (now : Int)
    (al : Alert) :
    TracesTo (s.ingest_alert now al).1 (al :: s.allAlertRecords) := by
  have hs2 := tracesTo_prune_append s now al
  have hal : ∃ a ∈ al :: s.allAlertRecords, a.id = al.id ∧
      (al.correlated_group_id = none → a.correlated_group_id = none) :=
    ⟨al, List.mem_cons_self al _, rfl, fun h => h⟩
  unfold AlertCorrelationEngine.ingest_alert
  rcases hsup : suppressGroups al
      (s.prune_stale_alerts now).correlation_groups with _ | v
  · simp only [hsup]
    rcases hds : (downstream_alerts_of
        ((s.prune_stale_alerts now).alert_buffer ++ [al]) al
        s.window_seconds).isEmpty with _ | _
    · -- root-cause branch
      simp only [hds, Bool.false_eq_true, if_false]
      apply tracesTo_foldl
      apply tracesTo_mapAlerts (Alert.setGroupId_id al.id _)
        (setGroupId_none_reflects al.id _)
      apply tracesTo_append_group
      · exact tracesTo_mapAlerts (Alert.setRootFlag_id al.id)
          (setRootFlag_none_reflects al.id) hs2
      · intro b hb
        simp only [Option.toList_some, List.cons_append, List.mem_cons,
          List.nil_append] at hb
        rcases hb with hb | hb
        · rw [hb]
          refine ⟨al, List.mem_cons_self al _, ?_, ?_⟩
          · rw [Alert.setRootFlag_id]
          · rw [Alert.setRootFlag_gid]; exact fun h => h
        · have hbuf : b ∈ (s.prune_stale_alerts now).alert_buffer ++ [al] :=
            (downstream_alerts_mem.mp hb).1
          exact hs2 b (List.mem_append.mpr (Or.inl hbuf))
    · simp only [hds, if_true]
      rcases hkey :
          (SERVICE_DEPENDENCY_GRAPH.lookup al.service_name).isSome with _ | _
      · -- standalone branch: no group stored
        simp only [hkey, Bool.false_eq_true, if_false]
        intro b hb
        exact hs2 b hb
      · -- potential-root-cause branch
        simp only [hkey, if_true]
        apply tracesTo_mapAlerts (Alert.setGroupId_id al.id _)
          (setGroupId_none_reflects al.id _)
        apply tracesTo_append_group
        · exact tracesTo_mapAlerts (Alert.setRootFlag_id al.id)
            (setRootFlag_none_reflects al.id) hs2
        · intro b hb
          simp only [Option.toList_some, List.append_nil,
            List.mem_singleton] at hb
          rw [hb]
          refine ⟨al, List.mem_cons_self al _, ?_, ?_⟩
          · rw [Alert.setRootFlag_id]
          · rw [Alert.setRootFlag_gid]; exact fun h => h
  · obtain ⟨gid, groups'⟩ := v
    simp only [hsup]
    apply tracesTo_mapAlerts (Alert.setGroupId_id al.id _)
      (setGroupId_none_reflects al.id _)
    exact tracesTo_suppress hs2 hal hsup

/-- C1 amended, provable half: `correlated_group_id` is never cleared.  A
record with unset `correlated_group_id` after an `ingest_alert` call is either
(a copy of) the just-ingested alert that came in unset, or traces to a
pre-call record with the same id that was already unset: no assignment ever
writes `None` into `correlated_group_id`. -/
theorem claim_C1_group_id_never_cleared (s : AlertCorrelationEngine)
    (now : Int) (al : Alert) :
    ∀ a' ∈ (s.ingest_alert now al).1.allAlertRecords,
      a'.correlated_group_id = none →
        (a'.id = al.id ∧ al.correlated_group_id = none) ∨
          ∃ a ∈ s.allAlertRecords, a.id = a'.id ∧
            a.correlated_group_id = none := by
  intro a' ha' hnone
  obtain ⟨a, ha, haid, hanone⟩ := ingest_tracesTo s now al a' ha'
  rcases List.mem_cons.mp ha with h | h
  · refine Or.inl ⟨by rw [← haid, h], ?_⟩
    rw [← h]
    exact hanone hnone
  · exact Or.inr ⟨a, h, haid, hanone hnone⟩

/-- The three alerts of the C1 counterexample run. -/
def c1_a : Alert :=
  { id := 1, service_name := "aumos-llm-serving", tenant_id := "tenant-A",
    severity := AlertSeverity.warning, message := "llm down", timestamp := 0,
    labels := [], is_root_cause := false, correlated_group_id := none }

def c1_b : Alert :=
  { id := 2, service_name := "aumos-context-graph", tenant_id := "tenant-A",
    severity := AlertSeverity.warning, message := "graph down",
    timestamp := 1, labels := [], is_root_cause := false,
    correlated_group_id := none }

def c1_d : Alert :=
  { id := 3, service_name := "aumos-data-layer", tenant_id := "tenant-A",
    severity := AlertSeverity.warning, message := "db down", timestamp := 2,
    labels := [], is_root_cause := false, correlated_group_id := none }

def c1_mid : AlertCorrelationEngine × IngestResult :=
  (((AlertCorrelationEngine.mk0 60 1000).ingest_alert 0 c1_a).1).ingest_alert
    1 c1_b

def c1_fin : AlertCorrelationEngine × IngestResult :=
  c1_mid.1.ingest_alert 2 c1_d

/-- C1 counterexample: alert 2 (`aumos-context-graph`) is suppressed into
group 0 (root `aumos-llm-serving`), setting `correlated_group_id = 0`; the
LATER ingestion of alert 3 (`aumos-data-layer`, not downstream of
`aumos-llm-serving`, but with `aumos-context-graph` among its dependents)
sweeps the still-buffered alert 2 into new group 1, overwriting its
`correlated_group_id` to 1, and alert 2 then sits in BOTH groups'
`related_alerts` — so an alert does not belong to at most one group, and a
later `ingest_alert` call does change an already-set `correlated_group_id`. -/
theorem claim_C1_counterexample :
    c1_mid.2 = IngestResult.suppressed ∧
      (c1_mid.1.findAlert 2).map Alert.correlated_group_id =
        some (some 0) ∧
      (c1_fin.1.findAlert 2).map Alert.correlated_group_id =
        some (some 1) ∧
      (c1_fin.1.get_group 0).map
          (fun g => g.related_alerts.map Alert.id) = some [2] ∧
      (c1_fin.1.get_group 1).map
          (fun g => g.related_alerts.map Alert.id) = some [2] := by
  refine ⟨by decide, by decide, by decide, by decide, by decide⟩

/-- C1 amended-theorem witness: a standalone alert ingested with unset
`correlated_group_id` still has it unset afterwards, and the theorem applies
to it. -/
theorem claim_C1_witness :
    (({ id := 5, service_name := "svc-unknown", tenant_id := "tenant-A",
        severity := AlertSeverity.info, message := "lone", timestamp := 0,
        labels := [], is_root_cause := false,
        correlated_group_id := none } : Alert) ∈
      ((AlertCorrelationEngine.mk0 60 1000).ingest_alert 0
        { id := 5, service_name := "svc-unknown", tenant_id := "tenant-A",
          severity := AlertSeverity.info, message := "lone", timestamp := 0,
          labels := [], is_root_cause := false,
          correlated_group_id := none }).1.allAlertRecords) ∧
      ((({ id := 5, service_name := "svc-unknown", tenant_id := "tenant-A",
           severity := AlertSeverity.info, message := "lone", timestamp := 0,
           labels := [], is_root_cause := false,
           correlated_group_id := none } : Alert).id = 5 ∧
          (none : Option Nat) = none) ∨
        ∃ a ∈ (AlertCorrelationEngine.mk0 60 1000).allAlertRecords,
          a.id = 5 ∧ a.correlated_group_id = none) := by
  refine ⟨by decide, ?_⟩
  have h := claim_C1_group_id_never_cleared
    (AlertCorrelationEngine.mk0 60 1000) 0
    { id := 5, service_name := "svc-unknown", tenant_id := "tenant-A",
      severity := AlertSeverity.info, message := "lone", timestamp := 0,
      labels := [], is_root_cause := false, correlated_group_id := none }
    { id := 5, service_name := "svc-unknown", tenant_id := "tenant-A",
      severity := AlertSeverity.info, message := "lone", timestamp := 0,
      labels := [], is_root_cause := false, correlated_group_id := none }
    (by decide) (by decide)
  simpa using h

/-! ### Claim C8 -/

/-- C8: backend failure semantics of `SLOBurnRateEngine.calculate`.  Every
exception of the backend call is caught inside `_query_scalar` (which is why
the embedding of `calculate` is a total function on `PromResponse` inputs):
a failing query and an empty result both contribute the scalar 0, the
evaluation still returns a complete `BurnRateResult` identical to the
no-data result, and missing numerator/denominator degrade to burn rates 0
and zero consumed budget — "no error observed", never an alert-biasing
value and never a propagated exception. -/
theorem claim_C8_backend_failure_degrades_to_zero (slo_id : String)
    (target_percentage : ℚ) (window_days : Int)
    (fast_burn_threshold slow_burn_threshold : ℚ)
    (fast_window_minutes slow_window_minutes : Int) (now : Int) :
    query_scalar PromResponse.failure = 0 ∧
      query_scalar PromResponse.empty = 0 ∧
      SLOBurnRateEngine.calculate slo_id target_percentage window_days
          fast_burn_threshold slow_burn_threshold fast_window_minutes
          slow_window_minutes PromResponse.failure PromResponse.failure now =
        SLOBurnRateEngine.calculate slo_id target_percentage window_days
          fast_burn_threshold slow_burn_threshold fast_window_minutes
          slow_window_minutes PromResponse.empty PromResponse.empty now ∧
      (SLOBurnRateEngine.calculate slo_id target_percentage window_days
          fast_burn_threshold slow_burn_threshold fast_window_minutes
          slow_window_minutes PromResponse.failure PromResponse.failure
          now).fast_burn_rate = 0 ∧
      (SLOBurnRateEngine.calculate slo_id target_percentage window_days
          fast_burn_threshold slow_burn_threshold fast_window_minutes
          slow_window_minutes PromResponse.failure PromResponse.failure
          now).slow_burn_rate = 0 ∧
      (SLOBurnRateEngine.calculate slo_id target_percentage window_days
          fast_burn_threshold slow_burn_threshold fast_window_minutes
          slow_window_minutes PromResponse.failure PromResponse.failure
          now).error_budget_consumed_percentage = 0 := by
  refine ⟨rfl, rfl, rfl, ?_, ?_, ?_⟩ <;>
    simp [SLOBurnRateEngine.calculate, query_scalar, zero_div, ite_self]

/-! ### Claim C6 -/

/-- C6: zero-traffic safety.  When `total_events` is 0 for the evaluation
windows the backend yields a failure, an empty result or NaN; in all three
shapes the engine's computed error rate is 0 (no NaN, no exception — the
embedding is total), and with positive burn thresholds (the API layer
validates `fast_burn_threshold, slow_burn_threshold >= 1.0`) both
`is_fast_burning` and `is_slow_burning` are false.  The same holds on the
adapter path: with `total_events = 0`, `compute_sli` yields SLI 1.0, so
`compute_burn_rate_for_window` reports `error_rate = 0` and is not
burning. -/
theorem claim_C6_zero_traffic_safety (slo_id : String)
    (target_percentage : ℚ) (window_days : Int)
    (fast_burn_threshold slow_burn_threshold : ℚ)
    (fast_window_minutes slow_window_minutes : Int) (now : Int)
    (fast_response slow_response : PromResponse)
    (hf : fast_response = PromResponse.failure ∨
      fast_response = PromResponse.empty ∨
      fast_response = PromResponse.nanValue)
    (hs : slow_response = PromResponse.failure ∨
      slow_response = PromResponse.empty ∨
      slow_response = PromResponse.nanValue)
    (hft : 0 < fast_burn_threshold) (hst : 0 < slow_burn_threshold) :
    query_scalar fast_response = 0 ∧
      query_scalar slow_response = 0 ∧
      (SLOBurnRateEngine.calculate slo_id target_percentage window_days
          fast_burn_threshold slow_burn_threshold fast_window_minutes
          slow_window_minutes fast_response slow_response
          now).is_fast_burning = false ∧
      (SLOBurnRateEngine.calculate slo_id target_percentage window_days
          fast_burn_threshold slow_burn_threshold fast_window_minutes
          slow_window_minutes fast_response slow_response
          now).is_slow_burning = false ∧
      (∀ (window : String) (threshold good_events : ℚ), 0 < threshold →
        (compute_burn_rate_for_window target_percentage window threshold
          good_events 0).error_rate = 0 ∧
        (compute_burn_rate_for_window target_percentage window threshold
          good_events 0).is_burning = false) := by
  have hf0 : query_scalar fast_response = 0 := by
    rcases hf with rfl | rfl | rfl <;> rfl
  have hs0 : query_scalar slow_response = 0 := by
    rcases hs with rfl | rfl | rfl <;> rfl
  refine ⟨hf0, hs0, ?_, ?_, ?_⟩
  · simp only [SLOBurnRateEngine.calculate, hf0, zero_div, ite_self]
    exact decide_eq_false (not_le.mpr hft)
  · simp only [SLOBurnRateEngine.calculate, hs0, zero_div, ite_self]
    exact decide_eq_false (not_le.mpr hst)
  · intro window threshold good_events hth
    constructor
    · simp [compute_burn_rate_for_window, compute_sli_value]
    · simp only [compute_burn_rate_for_window, compute_sli_value,
        lt_self_iff_false, if_false, sub_self, zero_div, ite_self]
      exact decide_eq_false (not_le.mpr hth)

/-- C6 witness at the default thresholds 14.4 and 6.0 and target 99.9. -/
theorem claim_C6_witness :
    ((PromResponse.empty = PromResponse.failure ∨
        PromResponse.empty = PromResponse.empty ∨
        PromResponse.empty = PromResponse.nanValue) ∧
      (0 : ℚ) < 144 / 10 ∧ (0 : ℚ) < 6) ∧
      (SLOBurnRateEngine.calculate "slo-1" (999 / 10) 30 (144 / 10) 6 5 60
          PromResponse.empty PromResponse.empty 0).is_fast_burning = false ∧
      (SLOBurnRateEngine.calculate "slo-1" (999 / 10) 30 (144 / 10) 6 5 60
          PromResponse.empty PromResponse.empty 0).is_slow_burning = false := by
  have h := claim_C6_zero_traffic_safety "slo-1" (999 / 10) 30 (144 / 10) 6
    5 60 0 PromResponse.empty PromResponse.empty
    (Or.inr (Or.inl rfl)) (Or.inr (Or.inl rfl))
    (by norm_num) (by norm_num)
  exact ⟨⟨Or.inr (Or.inl rfl), by norm_num, by norm_num⟩,
    h.2.2.1, h.2.2.2.1⟩

/-! ### Claim C2 -/

/-- The concrete evaluation of the C2 counterexample: target 99.9, 30-day
window, slow-window response scalar −1 (a malformed backend sample that
`_query_scalar` passes through unchanged since it is not NaN). -/
def c2_result : BurnRateResult :=
  SLOBurnRateEngine.calculate "slo-neg" (999 / 10) 30 (144 / 10) 6 5 60
    (PromResponse.value 0) (PromResponse.value (-1)) 0

/-- C2 counterexample: for a backend response with a negative scalar the
claimed bounds fail — `error_budget_consumed_percentage` is negative
(−1250/9 ≈ −138.9, the `min(·, 100)` clamp is one-sided) and
`current_error_budget_minutes` (516/5 = 103.2) exceeds
`total_error_budget_minutes` (216/5 = 43.2, the `max(·, 0)` clamp is
one-sided). -/
theorem claim_C2_counterexample :
    c2_result.error_budget_consumed_percentage < 0 ∧
      c2_result.total_error_budget_minutes <
        c2_result.current_error_budget_minutes := by
  constructor <;>
    norm_num [c2_result, SLOBurnRateEngine.calculate, query_scalar]

/-- C2 amended: unconditionally, `error_budget_consumed_percentage ≤ 100` and
`0 ≤ current_error_budget_minutes` (the one-sided clamps).  The full claimed
bounds `0 ≤ error_budget_consumed_percentage` and
`current_error_budget_minutes ≤ total_error_budget_minutes` hold whenever the
slow-window scalar is nonnegative (with `target_percentage ≤ 100`,
`0 ≤ window_days`, `0 ≤ slow_window_minutes`, all guaranteed at the API
boundary); they fail for negative backend scalars. -/
theorem claim_C2_budget_bounds (slo_id : String) (target_percentage : ℚ)
    (window_days : Int) (fast_burn_threshold slow_burn_threshold : ℚ)
    (fast_window_minutes slow_window_minutes : Int)
    (fast_response slow_response : PromResponse) (now : Int) :
    (SLOBurnRateEngine.calculate slo_id target_percentage window_days
        fast_burn_threshold slow_burn_threshold fast_window_minutes
        slow_window_minutes fast_response slow_response
        now).error_budget_consumed_percentage ≤ 100 ∧
      0 ≤ (SLOBurnRateEngine.calculate slo_id target_percentage window_days
        fast_burn_threshold slow_burn_threshold fast_window_minutes
        slow_window_minutes fast_response slow_response
        now).current_error_budget_minutes ∧
      (0 ≤ query_scalar slow_response → target_percentage ≤ 100 →
        0 ≤ window_days → 0 ≤ slow_window_minutes →
        0 ≤ (SLOBurnRateEngine.calculate slo_id target_percentage window_days
          fast_burn_threshold slow_burn_threshold fast_window_minutes
          slow_window_minutes fast_response slow_response
          now).error_budget_consumed_percentage ∧
        (SLOBurnRateEngine.calculate slo_id target_percentage window_days
          fast_burn_threshold slow_burn_threshold fast_window_minutes
          slow_window_minutes fast_response slow_response
          now).current_error_budget_minutes ≤
          (SLOBurnRateEngine.calculate slo_id target_percentage window_days
            fast_burn_threshold slow_burn_threshold fast_window_minutes
            slow_window_minutes fast_response slow_response
            now).total_error_budget_minutes) := by
  simp only [SLOBurnRateEngine.calculate]
  refine ⟨min_le_right _ _, le_max_right _ _, ?_⟩
  intro hsr htar hwd hswm
  have hrate : 0 ≤ (if 0 < 1 - target_percentage / 100 then
      query_scalar slow_response / (1 - target_percentage / 100) else 0) := by
    split
    · exact div_nonneg hsr (le_of_lt (by assumption))
    · exact le_refl 0
  have hwm : (0 : ℚ) ≤ (window_days : ℚ) * 24 * 60 := by
    have : (0 : ℚ) ≤ (window_days : ℚ) := by exact_mod_cast hwd
    positivity
  have hfrac : (0 : ℚ) ≤ (slow_window_minutes : ℚ) /
      ((window_days : ℚ) * 24 * 60) := by
    have h1 : (0 : ℚ) ≤ (slow_window_minutes : ℚ) := by exact_mod_cast hswm
    exact div_nonneg h1 hwm
  have hcf0 : 0 ≤ min ((if 0 < 1 - target_percentage / 100 then
      query_scalar slow_response / (1 - target_percentage / 100) else 0) *
      ((slow_window_minutes : ℚ) / ((window_days : ℚ) * 24 * 60))) 1 :=
    le_min (mul_nonneg hrate hfrac) zero_le_one
  have hcf1 : min ((if 0 < 1 - target_percentage / 100 then
      query_scalar slow_response / (1 - target_percentage / 100) else 0) *
      ((slow_window_minutes : ℚ) / ((window_days : ℚ) * 24 * 60))) 1 ≤ 1 :=
    min_le_right _ _
  have hert : (0 : ℚ) ≤ 1 - target_percentage / 100 := by
    have : target_percentage / 100 ≤ 1 := by linarith
    linarith
  have htot : (0 : ℚ) ≤ (window_days : ℚ) * 24 * 60 *
      (1 - target_percentage / 100) := mul_nonneg hwm hert
  constructor
  · exact le_min (by positivity) (by norm_num)
  · refine max_le ?_ htot
    calc (window_days : ℚ) * 24 * 60 * (1 - target_percentage / 100) *
          (1 - min ((if 0 < 1 - target_percentage / 100 then
            query_scalar slow_response / (1 - target_percentage / 100)
            else 0) *
            ((slow_window_minutes : ℚ) / ((window_days : ℚ) * 24 * 60))) 1)
        ≤ (window_days : ℚ) * 24 * 60 * (1 - target_percentage / 100) * 1 :=
          mul_le_mul_of_nonneg_left (by linarith) htot
      _ = (window_days : ℚ) * 24 * 60 * (1 - target_percentage / 100) :=
          mul_one _

/-- C2 amended-theorem witness at a nonnegative slow-window scalar. -/
theorem claim_C2_witness :
    (0 : ℚ) ≤ query_scalar (PromResponse.value (2 / 100)) ∧
      (999 / 10 : ℚ) ≤ 100 ∧
      0 ≤ (SLOBurnRateEngine.calculate "slo-ok" (999 / 10) 30 (144 / 10) 6 5
        60 (PromResponse.value (2 / 100)) (PromResponse.value (2 / 100))
        0).error_budget_consumed_percentage ∧
      (SLOBurnRateEngine.calculate "slo-ok" (999 / 10) 30 (144 / 10) 6 5
        60 (PromResponse.value (2 / 100)) (PromResponse.value (2 / 100))
        0).current_error_budget_minutes ≤
        (SLOBurnRateEngine.calculate "slo-ok" (999 / 10) 30 (144 / 10) 6 5
          60 (PromResponse.value (2 / 100)) (PromResponse.value (2 / 100))
          0).total_error_budget_minutes := by
  have h := (claim_C2_budget_bounds "slo-ok" (999 / 10) 30 (144 / 10) 6 5 60
    (PromResponse.value (2 / 100)) (PromResponse.value (2 / 100)) 0).2.2
    (by norm_num [query_scalar]) (by norm_num) (by norm_num) (by norm_num)
  exact ⟨by norm_num [query_scalar], by norm_num, h.1, h.2⟩

/-! ### Claim C3 -/

theorem mem_keys_of_lookup_isSome {su : String}
    {l : List (String × List String)}
    (h : (List.lookup su l).isSome = true) : su ∈ l.map Prod.fst := by
  induction l with
  | nil => simp [List.lookup] at h
  | cons p rest ih =>
      rw [List.lookup] at h
      rcases hk : (su == p.1) with _ | _
      · rw [hk] at h
        exact List.mem_cons_of_mem _ (ih h)
      · have : su = p.1 := by simpa using hk
        rw [this]
        exact List.mem_cons_self _ _

theorem lookup_isSome_of_mem_dependents {su sb : String}
    (h : sb ∈ dependents su) :
    (SERVICE_DEPENDENCY_GRAPH.lookup su).isSome = true := by
  unfold dependents at h
  cases hl : SERVICE_DEPENDENCY_GRAPH.lookup su with
  | none => rw [hl] at h; exact absurd h (List.not_mem_nil sb)
  | some v => rfl

theorem is_downstream_direct {su sb : String} (h : sb ∈ dependents su) :
    is_downstream su sb = true := by
  unfold is_downstream
  simp only [Bool.or_eq_true, decide_eq_true_eq]
  exact Or.inl h

/-- Asymmetry of the concrete dependency graph: a direct dependent of a key
service is never itself upstream of that service (there are no 2-bounded
cycles in `SERVICE_DEPENDENCY_GRAPH`). -/
theorem not_downstream_of_dependent {su sb : String}
    (h : sb ∈ dependents su) : is_downstream sb su = false := by
  have hsu : su ∈ SERVICE_DEPENDENCY_GRAPH.map Prod.fst :=
    mem_keys_of_lookup_isSome (lookup_isSome_of_mem_dependents h)
  simp only [SERVICE_DEPENDENCY_GRAPH, List.map_cons, List.map_nil,
    List.mem_cons, List.not_mem_nil, or_false] at hsu
  rcases hsu with rfl | rfl | rfl | rfl | rfl
  · have h' : sb ∈ ["aumos-governance-engine", "aumos-model-registry",
        "aumos-ai-finops", "aumos-maturity-assessment", "aumos-context-graph",
        "aumos-shadow-ai-toolkit"] := h
    simp only [List.mem_cons, List.not_mem_nil, or_false] at h'
    rcases h' with rfl | rfl | rfl | rfl | rfl | rfl <;> rfl
  · have h' : sb ∈ ["aumos-observability", "aumos-governance-engine",
        "aumos-ai-finops", "aumos-drift-detector",
        "aumos-security-runtime"] := h
    simp only [List.mem_cons, List.not_mem_nil, or_false] at h'
    rcases h' with rfl | rfl | rfl | rfl | rfl <;> rfl
  · have h' : sb ∈ ["aumos-llm-serving", "aumos-governance-engine",
        "aumos-model-registry", "aumos-marketplace", "aumos-ai-finops"] := h
    simp only [List.mem_cons, List.not_mem_nil, or_false] at h'
    rcases h' with rfl | rfl | rfl | rfl | rfl <;> rfl
  · have h' : sb ∈ ["aumos-text-engine", "aumos-agent-framework",
        "aumos-context-graph", "aumos-hallucination-shield"] := h
    simp only [List.mem_cons, List.not_mem_nil, or_false] at h'
    rcases h' with rfl | rfl | rfl | rfl <;> rfl
  · have h' : sb ∈ ["aumos-data-layer", "aumos-event-bus",
        "aumos-auth-gateway", "aumos-observability",
        "aumos-secrets-vault"] := h
    simp only [List.mem_cons, List.not_mem_nil, or_false] at h'
    rcases h' with rfl | rfl | rfl | rfl | rfl <;> rfl

theorem prune_mk0 (w : Int) (m : Nat) (now : Int) :
    (AlertCorrelationEngine.mk0 w m).prune_stale_alerts now =
      AlertCorrelationEngine.mk0 w m := by
  simp [AlertCorrelationEngine.prune_stale_alerts, AlertCorrelationEngine.mk0]

theorem ingest_fresh_key (w : Int) (m : Nat) (al : Alert) (now : Int)
    (hkey : (SERVICE_DEPENDENCY_GRAPH.lookup al.service_name).isSome = true) :
    (AlertCorrelationEngine.mk0 w m).ingest_alert now al =
      ({ window_seconds := w, max_buffer_size := m,
         alert_buffer := [{ al with is_root_cause := true,
                                    correlated_group_id := some 0 }],
         correlation_groups := [(0,
           { group_id := 0,
             root_cause := some { al with is_root_cause := true,
                                          correlated_group_id := some 0 },
             related_alerts := [], tenant_id := al.tenant_id,
             started_at := now, suppressed_count := 0 })],
         next_group_id := 1 },
       IngestResult.group
         { group_id := 0,
           root_cause := some { al with is_root_cause := true,
                                        correlated_group_id := some 0 },
           related_alerts := [], tenant_id := al.tenant_id,
           started_at := now, suppressed_count := 0 }) := by
  unfold AlertCorrelationEngine.ingest_alert
  rw [prune_mk0]
  simp [AlertCorrelationEngine.mk0, suppressGroups, downstream_alerts_of,
    tenant_window_alerts, hkey, AlertCorrelationEngine.mapAlerts,
    CorrelatedAlertGroup.mapAlerts, Alert.setRootFlag, Alert.setGroupId]

theorem ingest_singleton_suppress (w : Int) (m n : Nat) (a0 : Alert)
    (gid0 : Nat) (g0 : CorrelatedAlertGroup) (r al : Alert) (now : Int)
    (hm : 1 ≤ m)
    (hroot : g0.root_cause = some r)
    (hrel : g0.related_alerts = [])
    (htg : g0.tenant_id = al.tenant_id)
    (hdown : is_downstream r.service_name al.service_name = true)
    (hkeepa : now - 2 * w < a0.timestamp)
    (hkeepg : now - 2 * w ≤ g0.started_at)
    (hida : a0.id ≠ al.id)
    (hidr : r.id ≠ al.id) :
    ({ window_seconds := w, max_buffer_size := m, alert_buffer := [a0],
       correlation_groups := [(gid0, g0)], next_group_id := n } :
         AlertCorrelationEngine).ingest_alert now al =
      ({ window_seconds := w, max_buffer_size := m,
         alert_buffer := [a0, { al with correlated_group_id := some gid0 }],
         correlation_groups := [(gid0,
           { g0 with root_cause := some r,
                     related_alerts :=
                       [{ al with correlated_group_id := some gid0 }],
                     suppressed_count := g0.suppressed_count + 1 })],
         next_group_id := n }, IngestResult.suppressed) := by
  unfold AlertCorrelationEngine.ingest_alert
    AlertCorrelationEngine.prune_stale_alerts
  simp only [List.filter_cons, List.filter_nil, decide_eq_true hkeepa,
    decide_eq_true hkeepg, if_true, List.length_cons, List.length_nil]
  have hcap : ¬ (m < 0 + 1) := by omega
  simp only [if_neg hcap]
  have hmatch : suppression_match al (gid0, g0) = true := by
    unfold suppression_match
    rw [hroot]
    simp [htg, hdown]
  simp only [suppressGroups, hmatch, if_true]
  simp only [AlertCorrelationEngine.mapAlerts, CorrelatedAlertGroup.mapAlerts,
    suppressAppend, hroot, hrel]
  simp [Alert.setGroupId, hida, hidr]

theorem ingest_fresh_nonkey (w : Int) (m : Nat) (al : Alert) (now : Int)
    (hkey : (SERVICE_DEPENDENCY_GRAPH.lookup al.service_name).isSome =
      false) :
    (AlertCorrelationEngine.mk0 w m).ingest_alert now al =
      ({ window_seconds := w, max_buffer_size := m, alert_buffer := [al],
         correlation_groups := [], next_group_id := 1 },
       IngestResult.group
         { group_id := 0, root_cause := some al, related_alerts := [],
           tenant_id := al.tenant_id, started_at := now,
           suppressed_count := 0 }) := by
  unfold AlertCorrelationEngine.ingest_alert
  rw [prune_mk0]
  simp [AlertCorrelationEngine.mk0, suppressGroups, downstream_alerts_of,
    tenant_window_alerts, hkey]

theorem ingest_pair_rootbranch_nogroups (w : Int) (m n : Nat) (b0 al : Alert)
    (now : Int)
    (hm : 1 ≤ m)
    (hkeep : now - 2 * w < b0.timestamp)
    (htb : b0.tenant_id = al.tenant_id)
    (hidb : b0.id ≠ al.id)
    (htime : al.timestamp - b0.timestamp ≤ w)
    (hdown : is_downstream al.service_name b0.service_name = true) :
    ({ window_seconds := w, max_buffer_size := m, alert_buffer := [b0],
       correlation_groups := [], next_group_id := n } :
         AlertCorrelationEngine).ingest_alert now al =
      ({ window_seconds := w, max_buffer_size := m,
         alert_buffer :=
           [{ b0 with correlated_group_id := some n },
            { al with is_root_cause := true,
                      correlated_group_id := some n }],
         correlation_groups := [(n,
           { group_id := n,
             root_cause := some { al with is_root_cause := true,
                                          correlated_group_id := some n },
             related_alerts := [{ b0 with correlated_group_id := some n }],
             tenant_id := al.tenant_id, started_at := now,
             suppressed_count := 1 })],
         next_group_id := n + 1 },
       IngestResult.group
         { group_id := n,
           root_cause := some { al with is_root_cause := true,
                                        correlated_group_id := some n },
           related_alerts := [{ b0 with correlated_group_id := some n }],
           tenant_id := al.tenant_id, started_at := now,
           suppressed_count := 1 }) := by
  unfold AlertCorrelationEngine.ingest_alert
    AlertCorrelationEngine.prune_stale_alerts
  simp only [List.filter_cons, List.filter_nil, decide_eq_true hkeep,
    if_true, List.length_cons, List.length_nil]
  have hcap : ¬ (m < 0 + 1) := by omega
  simp only [if_neg hcap]
  have hds : downstream_alerts_of ([b0] ++ [al]) al w = [b0] := by
    unfold downstream_alerts_of tenant_window_alerts
    have h1 : al.timestamp ≤ w + b0.timestamp := by omega
    simp [htb, hidb, hdown, h1]
  simp only [suppressGroups, hds]
  simp only [List.isEmpty_cons, Bool.false_eq_true, if_false,
    List.foldl_cons, List.foldl_nil]
  simp only [AlertCorrelationEngine.mapAlerts,
    CorrelatedAlertGroup.mapAlerts, List.map_cons, List.map_nil,
    List.map_append, Option.map_some, List.nil_append]
  simp [Alert.setRootFlag, Alert.setGroupId, hidb, Ne.symm hidb]

theorem ingest_pair_rootbranch_bgroup (w : Int) (m n : Nat) (t0 : Int)
    (B al : Alert) (now : Int)
    (hm : 1 ≤ m)
    (hkeepb : now - 2 * w < B.timestamp)
    (hkeepg : now - 2 * w ≤ t0)
    (htb : B.tenant_id = al.tenant_id)
    (hidb : B.id ≠ al.id)
    (htime : al.timestamp - B.timestamp ≤ w)
    (hdownAB : is_downstream al.service_name B.service_name = true)
    (hdownBA : is_downstream B.service_name al.service_name = false) :
    ({ window_seconds := w, max_buffer_size := m,
       alert_buffer := [{ B with is_root_cause := true,
                                 correlated_group_id := some 0 }],
       correlation_groups := [(0,
         { group_id := 0,
           root_cause := some { B with is_root_cause := true,
                                       correlated_group_id := some 0 },
           related_alerts := [], tenant_id := B.tenant_id,
           started_at := t0, suppressed_count := 0 })],
       next_group_id := n } :
         AlertCorrelationEngine).ingest_alert now al =
      ({ window_seconds := w, max_buffer_size := m,
         alert_buffer :=
           [{ B with is_root_cause := true, correlated_group_id := some n },
            { al with is_root_cause := true,
                      correlated_group_id := some n }],
         correlation_groups :=
           [(0,
             { group_id := 0,
               root_cause := some { B with is_root_cause := true,
                                           correlated_group_id := some n },
               related_alerts := [], tenant_id := B.tenant_id,
               started_at := t0, suppressed_count := 0 }),
            (n,
             { group_id := n,
               root_cause := some { al with is_root_cause := true,
                                            correlated_group_id := some n },
               related_alerts :=
                 [{ B with is_root_cause := true,
                           correlated_group_id := some n }],
               tenant_id := al.tenant_id, started_at := now,
               suppressed_count := 1 })],
         next_group_id := n + 1 },
       IngestResult.group
         { group_id := n,
           root_cause := some { al with is_root_cause := true,
                                        correlated_group_id := some n },
           related_alerts :=
             [{ B with is_root_cause := true,
                       correlated_group_id := some n }],
           tenant_id := al.tenant_id, started_at := now,
           suppressed_count := 1 }) := by
  unfold AlertCorrelationEngine.ingest_alert
    AlertCorrelationEngine.prune_stale_alerts
  simp only [List.filter_cons, List.filter_nil, decide_eq_true hkeepb,
    decide_eq_true hkeepg, if_true, List.length_cons, List.length_nil]
  have hcap : ¬ (m < 0 + 1) := by omega
  simp only [if_neg hcap]
  have hmatch : suppression_match al (0,
      ({ group_id := 0,
         root_cause := some { B with is_root_cause := true,
                                     correlated_group_id := some 0 },
         related_alerts := [], tenant_id := B.tenant_id,
         started_at := t0, suppressed_count := 0 } :
           CorrelatedAlertGroup)) = false := by
    unfold suppression_match
    simp [hdownBA]
  have hds : downstream_alerts_of
      ([{ B with is_root_cause := true, correlated_group_id := some 0 }] ++
        [al]) al w =
      [{ B with is_root_cause := true, correlated_group_id := some 0 }] := by
    unfold downstream_alerts_of tenant_window_alerts
    have h1 : al.timestamp ≤ w + B.timestamp := by omega
    simp [htb, hidb, hdownAB, h1]
  simp only [suppressGroups, hmatch, Bool.false_eq_true, if_false, hds]
  simp only [List.isEmpty_cons, Bool.false_eq_true, if_false,
    List.foldl_cons, List.foldl_nil]
  simp only [AlertCorrelationEngine.mapAlerts,
    CorrelatedAlertGroup.mapAlerts, List.map_cons, List.map_nil,
    List.map_append, Option.map_some, List.nil_append]
  simp [Alert.setRootFlag, Alert.setGroupId, hidb, Ne.symm hidb]

def c3Post (A B : Alert) (st : AlertCorrelationEngine) : Prop :=
  ∃ gid g, st.get_group gid = some g ∧
    (∃ root, g.root_cause = some root ∧ root.id = A.id ∧
      root.is_root_cause = true) ∧
    (∃ b, st.findAlert B.id = some b ∧ b.correlated_group_id = some gid ∧
      b ∈ g.related_alerts)

/-- C3: suppression correctness in either order.  For an upstream alert `A`
from a service with at least one dependent and a downstream alert `B` from a
direct dependent of that service, same tenant, within `window_seconds` of
each other, ingested into a fresh engine in either order: if `A` arrives
first, ingesting `B` returns `None` (B suppressed); if `B` arrives first,
ingesting `A` returns a group whose root cause is `A` (A root-cause) — in
each order exactly that one outcome occurs — and in both final states `B`'s
`correlated_group_id` equals the id of a registered group whose root cause
is `A` and whose `related_alerts` contain `B`. -/
theorem claim_C3_suppression_correctness (w : Int) (m : Nat) (A B : Alert)
    (hw : 0 < w) (hm : 1 ≤ m)
    (hdep : B.service_name ∈ dependents A.service_name)
    (ht : B.tenant_id = A.tenant_id)
    (hid : A.id ≠ B.id)
    (hAB : A.timestamp - B.timestamp ≤ w)
    (hBA : B.timestamp - A.timestamp ≤ w) :
    ((((AlertCorrelationEngine.mk0 w m).ingest_alert A.timestamp
          A).1.ingest_alert B.timestamp B).2 = IngestResult.suppressed ∧
        c3Post A B (((AlertCorrelationEngine.mk0 w m).ingest_alert
          A.timestamp A).1.ingest_alert B.timestamp B).1) ∧
      ((∃ g, (((AlertCorrelationEngine.mk0 w m).ingest_alert B.timestamp
            B).1.ingest_alert A.timestamp A).2 = IngestResult.group g ∧
          ∃ root, g.root_cause = some root ∧ root.id = A.id ∧
            root.is_root_cause = true) ∧
        c3Post A B (((AlertCorrelationEngine.mk0 w m).ingest_alert
          B.timestamp B).1.ingest_alert A.timestamp A).1) := by
  have hkeyA := lookup_isSome_of_mem_dependents hdep
  have hdownAB : is_downstream A.service_name B.service_name = true :=
    is_downstream_direct hdep
  constructor
  · -- order: upstream A first, downstream B second (B suppressed)
    have e2 := ingest_singleton_suppress w m 1
      ({ A with is_root_cause := true, correlated_group_id := some 0 }) 0
      ({ group_id := 0,
         root_cause := some { A with is_root_cause := true,
                                     correlated_group_id := some 0 },
         related_alerts := [], tenant_id := A.tenant_id,
         started_at := A.timestamp, suppressed_count := 0 })
      ({ A with is_root_cause := true, correlated_group_id := some 0 }) B
      B.timestamp hm rfl rfl ht.symm
      (by show is_downstream A.service_name B.service_name = true
          exact hdownAB)
      (by show B.timestamp - 2 * w < A.timestamp; omega)
      (by show B.timestamp - 2 * w ≤ A.timestamp; omega)
      (by show A.id ≠ B.id; exact hid)
      (by show A.id ≠ B.id; exact hid)
    have e12 : (((AlertCorrelationEngine.mk0 w m).ingest_alert A.timestamp
        A).1.ingest_alert B.timestamp B) =
        ({ window_seconds := w, max_buffer_size := m,
           alert_buffer :=
             [{ A with is_root_cause := true, correlated_group_id := some 0 },
              { B with correlated_group_id := some 0 }],
           correlation_groups := [(0,
             { group_id := 0,
               root_cause := some { A with is_root_cause := true,
                                           correlated_group_id := some 0 },
               related_alerts := [{ B with correlated_group_id := some 0 }],
               tenant_id := A.tenant_id, started_at := A.timestamp,
               suppressed_count := 1 })],
           next_group_id := 1 }, IngestResult.suppressed) := by
      rw [ingest_fresh_key w m A A.timestamp hkeyA]
      exact e2
    rw [e12]
    refine ⟨rfl, 0, _, rfl, ⟨_, rfl, rfl, rfl⟩, ?_⟩
    refine ⟨{ B with correlated_group_id := some 0 }, ?_, rfl,
      List.mem_singleton.mpr rfl⟩
    simp [AlertCorrelationEngine.findAlert, List.find?, hid]
  · -- order: downstream B first, upstream A second (A root cause)
    rcases hkeyB : (SERVICE_DEPENDENCY_GRAPH.lookup B.service_name).isSome
      with _ | _
    · -- B's service has no dependents: standalone first
      have e2 := ingest_pair_rootbranch_nogroups w m 1 B A A.timestamp hm
        (by omega) ht (Ne.symm hid) hAB hdownAB
      have e12 : (((AlertCorrelationEngine.mk0 w m).ingest_alert B.timestamp
          B).1.ingest_alert A.timestamp A) =
          ({ window_seconds := w, max_buffer_size := m,
             alert_buffer :=
               [{ B with correlated_group_id := some 1 },
                { A with is_root_cause := true,
                         correlated_group_id := some 1 }],
             correlation_groups := [(1,
               { group_id := 1,
                 root_cause := some { A with is_root_cause := true,
                                             correlated_group_id := some 1 },
                 related_alerts :=
                   [{ B with correlated_group_id := some 1 }],
                 tenant_id := A.tenant_id, started_at := A.timestamp,
                 suppressed_count := 1 })],
             next_group_id := 2 },
           IngestResult.group
             { group_id := 1,
               root_cause := some { A with is_root_cause := true,
                                           correlated_group_id := some 1 },
               related_alerts := [{ B with correlated_group_id := some 1 }],
               tenant_id := A.tenant_id, started_at := A.timestamp,
               suppressed_count := 1 }) := by
        rw [ingest_fresh_nonkey w m B B.timestamp hkeyB]
        exact e2
      rw [e12]
      refine ⟨⟨_, rfl, _, rfl, rfl, rfl⟩, 1, _, rfl,
        ⟨_, rfl, rfl, rfl⟩, ?_⟩
      refine ⟨{ B with correlated_group_id := some 1 }, ?_, rfl,
        List.mem_singleton.mpr rfl⟩
      simp [AlertCorrelationEngine.findAlert, List.find?]
    · -- B's service is itself a graph key: potential root group first
      have e2 := ingest_pair_rootbranch_bgroup w m 1 B.timestamp B A
        A.timestamp hm (by omega) (by omega) ht (Ne.symm hid) hAB hdownAB
        (not_downstream_of_dependent hdep)
      have e12 : (((AlertCorrelationEngine.mk0 w m).ingest_alert B.timestamp
          B).1.ingest_alert A.timestamp A) =
          ({ window_seconds := w, max_buffer_size := m,
             alert_buffer :=
               [{ B with is_root_cause := true,
                         correlated_group_id := some 1 },
                { A with is_root_cause := true,
                         correlated_group_id := some 1 }],
             correlation_groups :=
               [(0,
                 { group_id := 0,
                   root_cause := some { B with is_root_cause := true,
                                               correlated_group_id :=
                                                 some 1 },
                   related_alerts := [], tenant_id := B.tenant_id,
                   started_at := B.timestamp, suppressed_count := 0 }),
                (1,
                 { group_id := 1,
                   root_cause := some { A with is_root_cause := true,
                                               correlated_group_id :=
                                                 some 1 },
                   related_alerts :=
                     [{ B with is_root_cause := true,
                               correlated_group_id := some 1 }],
                   tenant_id := A.tenant_id, started_at := A.timestamp,
                   suppressed_count := 1 })],
             next_group_id := 2 },
           IngestResult.group
             { group_id := 1,
               root_cause := some { A with is_root_cause := true,
                                           correlated_group_id := some 1 },
               related_alerts :=
                 [{ B with is_root_cause := true,
                           correlated_group_id := some 1 }],
               tenant_id := A.tenant_id, started_at := A.timestamp,
               suppressed_count := 1 }) := by
        rw [ingest_fresh_key w m B B.timestamp hkeyB]
        exact e2
      rw [e12]
      refine ⟨⟨_, rfl, _, rfl, rfl, rfl⟩, 1, _, rfl,
        ⟨_, rfl, rfl, rfl⟩, ?_⟩
      refine ⟨{ B with is_root_cause := true,
                       correlated_group_id := some 1 }, ?_, rfl,
        List.mem_singleton.mpr rfl⟩
      simp [AlertCorrelationEngine.findAlert, List.find?]


/-- Concrete C3 pair: upstream `aumos-llm-serving`, downstream
`aumos-text-engine` (a direct dependent), same tenant, 10 seconds apart. -/
def c3_A : Alert :=
  { id := 1, service_name := "aumos-llm-serving", tenant_id := "tenant-A",
    severity := AlertSeverity.critical, message := "llm down",
    timestamp := 0, labels := [], is_root_cause := false,
    correlated_group_id := none }

def c3_B : Alert :=
  { id := 2, service_name := "aumos-text-engine", tenant_id := "tenant-A",
    severity := AlertSeverity.warning, message := "text down",
    timestamp := 10, labels := [], is_root_cause := false,
    correlated_group_id := none }

/-- C3 witness at the concrete pair, both orders. -/
theorem claim_C3_witness :
    ((((AlertCorrelationEngine.mk0 60 1000).ingest_alert c3_A.timestamp
          c3_A).1.ingest_alert c3_B.timestamp c3_B).2 =
            IngestResult.suppressed ∧
        c3Post c3_A c3_B (((AlertCorrelationEngine.mk0 60 1000).ingest_alert
          c3_A.timestamp c3_A).1.ingest_alert c3_B.timestamp c3_B).1) ∧
      ((∃ g, (((AlertCorrelationEngine.mk0 60 1000).ingest_alert
            c3_B.timestamp c3_B).1.ingest_alert c3_A.timestamp c3_A).2 =
              IngestResult.group g ∧
          ∃ root, g.root_cause = some root ∧ root.id = c3_A.id ∧
            root.is_root_cause = true) ∧
        c3Post c3_A c3_B (((AlertCorrelationEngine.mk0 60 1000).ingest_alert
          c3_B.timestamp c3_B).1.ingest_alert c3_A.timestamp c3_A).1) :=
  claim_C3_suppression_correctness 60 1000 c3_A c3_B (by decide) (by decide)
    (by decide) (by decide) (by decide) (by decide) (by decide)


end Aumos
